import Mathlib

/-! OV5640 camera sensor driver (`drivers/media/i2c/ov5640.c`).

A shallow embedding of the driver's power state machine, register transport,
mode selection, format negotiation and control setters, followed by the
properties established about them.

Conventions of the embedding:

* C machine integers are `Nat`/`Int` with the wrap-around written out
  (`% 2 ^ 32` for `unsigned int`, `% 256` for `u8`, `wrap_s32` for `int`).
* Every call into an external collaborator (regulator, clock, GPIO, bus
  transfer, CCI controller) is appended to `World.trace`; the code it returns
  is supplied by an environment `Env`, indexed by the number of calls already
  made and by the call itself.
* Sleeps and log messages are not modelled.
* Calls are sequential, so the per-device `power_lock` (taken on entry and
  released on every return path of `ov5640_s_power` and `ov5640_s_ctrl`) is
  always free between calls and is left out; the process-wide `ov5640_lock`
  is an explicit flag of the `World`.
-/

namespace OV5640

/-! ## Data model -/

/-- The C `struct reg_value`: a 16-bit register address and an 8-bit value. -/
structure reg_value where
  reg : Nat
  val : Nat
deriving DecidableEq, Repr

/-- The C `struct ov5640_mode_info`. -/
structure ov5640_mode_info where
  width : Nat
  height : Nat
  data : List reg_value
  data_size : Nat
deriving DecidableEq, Repr

/-- The register table `ov5640_global_init_setting` of the driver, in table order. -/
def ov5640_global_init_setting : List reg_value :=
  [reg_value.mk 0x3103 0x11, reg_value.mk 0x3008 0x82, reg_value.mk 0x3008 0x42,
   reg_value.mk 0x3103 0x03, reg_value.mk 0x3017 0x00, reg_value.mk 0x3018 0x00,
   reg_value.mk 0x3034 0x18, reg_value.mk 0x3035 0x11, reg_value.mk 0x3036 0x54,
   reg_value.mk 0x3037 0x13, reg_value.mk 0x3108 0x01, reg_value.mk 0x3630 0x36,
   reg_value.mk 0x3631 0x0e, reg_value.mk 0x3632 0xe2, reg_value.mk 0x3633 0x12,
   reg_value.mk 0x3621 0xe0, reg_value.mk 0x3704 0xa0, reg_value.mk 0x3703 0x5a,
   reg_value.mk 0x3715 0x78, reg_value.mk 0x3717 0x01, reg_value.mk 0x370b 0x60,
   reg_value.mk 0x3705 0x1a, reg_value.mk 0x3905 0x02, reg_value.mk 0x3906 0x10,
   reg_value.mk 0x3901 0x0a, reg_value.mk 0x3731 0x12, reg_value.mk 0x3600 0x08,
   reg_value.mk 0x3601 0x33, reg_value.mk 0x302d 0x60, reg_value.mk 0x3620 0x52,
   reg_value.mk 0x371b 0x20, reg_value.mk 0x471c 0x50, reg_value.mk 0x3a13 0x43,
   reg_value.mk 0x3a18 0x00, reg_value.mk 0x3a19 0xf8, reg_value.mk 0x3635 0x13,
   reg_value.mk 0x3636 0x03, reg_value.mk 0x3634 0x40, reg_value.mk 0x3622 0x01,
   reg_value.mk 0x3c01 0x34, reg_value.mk 0x3c04 0x28, reg_value.mk 0x3c05 0x98,
   reg_value.mk 0x3c06 0x00, reg_value.mk 0x3c07 0x07, reg_value.mk 0x3c08 0x00,
   reg_value.mk 0x3c09 0x1c, reg_value.mk 0x3c0a 0x9c, reg_value.mk 0x3c0b 0x40,
   reg_value.mk 0x3820 0x40, reg_value.mk 0x3821 0x06, reg_value.mk 0x3814 0x11,
   reg_value.mk 0x3815 0x11, reg_value.mk 0x3810 0x00, reg_value.mk 0x3811 0x10,
   reg_value.mk 0x3812 0x00, reg_value.mk 0x3813 0x04, reg_value.mk 0x3618 0x04,
   reg_value.mk 0x3612 0x2b, reg_value.mk 0x3708 0x63, reg_value.mk 0x3709 0x12,
   reg_value.mk 0x370c 0x00, reg_value.mk 0x4001 0x02, reg_value.mk 0x4004 0x06,
   reg_value.mk 0x4050 0x6e, reg_value.mk 0x4051 0x8f, reg_value.mk 0x3000 0x00,
   reg_value.mk 0x3002 0x1c, reg_value.mk 0x3004 0xff, reg_value.mk 0x3006 0xc3,
   reg_value.mk 0x300e 0x45, reg_value.mk 0x302e 0x08, reg_value.mk 0x4300 0x32,
   reg_value.mk 0x4837 0x0a, reg_value.mk 0x501f 0x00, reg_value.mk 0x4713 0x02,
   reg_value.mk 0x4407 0x04, reg_value.mk 0x440e 0x00, reg_value.mk 0x460b 0x37,
   reg_value.mk 0x460c 0x20, reg_value.mk 0x5000 0xa7, reg_value.mk 0x5001 0x83,
   reg_value.mk 0x5180 0xff, reg_value.mk 0x5181 0xf2, reg_value.mk 0x5182 0x00,
   reg_value.mk 0x5183 0x14, reg_value.mk 0x5184 0x25, reg_value.mk 0x5185 0x24,
   reg_value.mk 0x5186 0x09, reg_value.mk 0x5187 0x09, reg_value.mk 0x5188 0x09,
   reg_value.mk 0x5189 0x75, reg_value.mk 0x518a 0x54, reg_value.mk 0x518b 0xe0,
   reg_value.mk 0x518c 0xb2, reg_value.mk 0x518d 0x42, reg_value.mk 0x518e 0x3d,
   reg_value.mk 0x518f 0x56, reg_value.mk 0x5190 0x46, reg_value.mk 0x5191 0xf8,
   reg_value.mk 0x5192 0x04, reg_value.mk 0x5193 0x70, reg_value.mk 0x5194 0xf0,
   reg_value.mk 0x5195 0xf0, reg_value.mk 0x5196 0x03, reg_value.mk 0x5197 0x01,
   reg_value.mk 0x5198 0x04, reg_value.mk 0x5199 0x12, reg_value.mk 0x519a 0x04,
   reg_value.mk 0x519b 0x00, reg_value.mk 0x519c 0x06, reg_value.mk 0x519d 0x82,
   reg_value.mk 0x519e 0x38, reg_value.mk 0x5381 0x1e, reg_value.mk 0x5382 0x5b,
   reg_value.mk 0x5383 0x08, reg_value.mk 0x5384 0x0a, reg_value.mk 0x5385 0x7e,
   reg_value.mk 0x5386 0x88, reg_value.mk 0x5387 0x7c, reg_value.mk 0x5388 0x6c,
   reg_value.mk 0x5389 0x10, reg_value.mk 0x538a 0x01, reg_value.mk 0x538b 0x98,
   reg_value.mk 0x5300 0x08, reg_value.mk 0x5301 0x30, reg_value.mk 0x5302 0x10,
   reg_value.mk 0x5303 0x00, reg_value.mk 0x5304 0x08, reg_value.mk 0x5305 0x30,
   reg_value.mk 0x5306 0x08, reg_value.mk 0x5307 0x16, reg_value.mk 0x5309 0x08,
   reg_value.mk 0x530a 0x30, reg_value.mk 0x530b 0x04, reg_value.mk 0x530c 0x06,
   reg_value.mk 0x5480 0x01, reg_value.mk 0x5481 0x08, reg_value.mk 0x5482 0x14,
   reg_value.mk 0x5483 0x28, reg_value.mk 0x5484 0x51, reg_value.mk 0x5485 0x65,
   reg_value.mk 0x5486 0x71, reg_value.mk 0x5487 0x7d, reg_value.mk 0x5488 0x87,
   reg_value.mk 0x5489 0x91, reg_value.mk 0x548a 0x9a, reg_value.mk 0x548b 0xaa,
   reg_value.mk 0x548c 0xb8, reg_value.mk 0x548d 0xcd, reg_value.mk 0x548e 0xdd,
   reg_value.mk 0x548f 0xea, reg_value.mk 0x5490 0x1d, reg_value.mk 0x5580 0x02,
   reg_value.mk 0x5583 0x40, reg_value.mk 0x5584 0x10, reg_value.mk 0x5589 0x10,
   reg_value.mk 0x558a 0x00, reg_value.mk 0x558b 0xf8, reg_value.mk 0x5800 0x23,
   reg_value.mk 0x5801 0x14, reg_value.mk 0x5802 0x0f, reg_value.mk 0x5803 0x0f,
   reg_value.mk 0x5804 0x12, reg_value.mk 0x5805 0x26, reg_value.mk 0x5806 0x0c,
   reg_value.mk 0x5807 0x08, reg_value.mk 0x5808 0x05, reg_value.mk 0x5809 0x05,
   reg_value.mk 0x580a 0x08, reg_value.mk 0x580b 0x0d, reg_value.mk 0x580c 0x08,
   reg_value.mk 0x580d 0x03, reg_value.mk 0x580e 0x00, reg_value.mk 0x580f 0x00,
   reg_value.mk 0x5810 0x03, reg_value.mk 0x5811 0x09, reg_value.mk 0x5812 0x07,
   reg_value.mk 0x5813 0x03, reg_value.mk 0x5814 0x00, reg_value.mk 0x5815 0x01,
   reg_value.mk 0x5816 0x03, reg_value.mk 0x5817 0x08, reg_value.mk 0x5818 0x0d,
   reg_value.mk 0x5819 0x08, reg_value.mk 0x581a 0x05, reg_value.mk 0x581b 0x06,
   reg_value.mk 0x581c 0x08, reg_value.mk 0x581d 0x0e, reg_value.mk 0x581e 0x29,
   reg_value.mk 0x581f 0x17, reg_value.mk 0x5820 0x11, reg_value.mk 0x5821 0x11,
   reg_value.mk 0x5822 0x15, reg_value.mk 0x5823 0x28, reg_value.mk 0x5824 0x46,
   reg_value.mk 0x5825 0x26, reg_value.mk 0x5826 0x08, reg_value.mk 0x5827 0x26,
   reg_value.mk 0x5828 0x64, reg_value.mk 0x5829 0x26, reg_value.mk 0x582a 0x24,
   reg_value.mk 0x582b 0x22, reg_value.mk 0x582c 0x24, reg_value.mk 0x582d 0x24,
   reg_value.mk 0x582e 0x06, reg_value.mk 0x582f 0x22, reg_value.mk 0x5830 0x40,
   reg_value.mk 0x5831 0x42, reg_value.mk 0x5832 0x24, reg_value.mk 0x5833 0x26,
   reg_value.mk 0x5834 0x24, reg_value.mk 0x5835 0x22, reg_value.mk 0x5836 0x22,
   reg_value.mk 0x5837 0x26, reg_value.mk 0x5838 0x44, reg_value.mk 0x5839 0x24,
   reg_value.mk 0x583a 0x26, reg_value.mk 0x583b 0x28, reg_value.mk 0x583c 0x42,
   reg_value.mk 0x583d 0xce, reg_value.mk 0x5025 0x00, reg_value.mk 0x3a0f 0x30,
   reg_value.mk 0x3a10 0x28, reg_value.mk 0x3a1b 0x30, reg_value.mk 0x3a1e 0x26,
   reg_value.mk 0x3a11 0x60, reg_value.mk 0x3a1f 0x14]

/-- The register table `ov5640_setting_1080p` of the driver, in table order. -/
def ov5640_setting_1080p : List reg_value :=
  [reg_value.mk 0x3800 0x01, reg_value.mk 0x3801 0x50, reg_value.mk 0x3802 0x01,
   reg_value.mk 0x3803 0xb2, reg_value.mk 0x3804 0x08, reg_value.mk 0x3805 0xef,
   reg_value.mk 0x3806 0x05, reg_value.mk 0x3807 0xf1, reg_value.mk 0x3808 0x07,
   reg_value.mk 0x3809 0x80, reg_value.mk 0x380a 0x04, reg_value.mk 0x380b 0x38,
   reg_value.mk 0x380c 0x09, reg_value.mk 0x380d 0xc4, reg_value.mk 0x380e 0x04,
   reg_value.mk 0x380f 0x60, reg_value.mk 0x3a02 0x04, reg_value.mk 0x3a03 0x60,
   reg_value.mk 0x3a08 0x01, reg_value.mk 0x3a09 0x50, reg_value.mk 0x3a0a 0x01,
   reg_value.mk 0x3a0b 0x18, reg_value.mk 0x3a0e 0x03, reg_value.mk 0x3a0d 0x04,
   reg_value.mk 0x3a14 0x04, reg_value.mk 0x3a15 0x60, reg_value.mk 0x5684 0x07,
   reg_value.mk 0x5685 0xa0, reg_value.mk 0x5686 0x04, reg_value.mk 0x5687 0x40,
   reg_value.mk 0x3824 0x04]

/-- The register table `ov5640_setting_full` of the driver, in table order. -/
def ov5640_setting_full : List reg_value :=
  [reg_value.mk 0x3800 0x00, reg_value.mk 0x3801 0x00, reg_value.mk 0x3802 0x00,
   reg_value.mk 0x3803 0x00, reg_value.mk 0x3804 0x0a, reg_value.mk 0x3805 0x3f,
   reg_value.mk 0x3806 0x07, reg_value.mk 0x3807 0x96, reg_value.mk 0x3808 0x0a,
   reg_value.mk 0x3809 0x20, reg_value.mk 0x380a 0x07, reg_value.mk 0x380b 0x98,
   reg_value.mk 0x380c 0x0b, reg_value.mk 0x380d 0x1c, reg_value.mk 0x380e 0x07,
   reg_value.mk 0x380f 0xb0, reg_value.mk 0x3a02 0x07, reg_value.mk 0x3a03 0xb0,
   reg_value.mk 0x3a08 0x01, reg_value.mk 0x3a09 0x27, reg_value.mk 0x3a0a 0x00,
   reg_value.mk 0x3a0b 0xf6, reg_value.mk 0x3a0e 0x06, reg_value.mk 0x3a0d 0x08,
   reg_value.mk 0x3a14 0x07, reg_value.mk 0x3a15 0xb0, reg_value.mk 0x5684 0x0a,
   reg_value.mk 0x5685 0x20, reg_value.mk 0x5686 0x07, reg_value.mk 0x5687 0x98,
   reg_value.mk 0x3824 0x01]

/-- Entry 0 of the mode catalog: 1920x1080 with the table `ov5640_setting_1080p`. -/
def mode_1080p : ov5640_mode_info :=
  { width := 1920, height := 1080,
    data := ov5640_setting_1080p, data_size := ov5640_setting_1080p.length }

/-- Entry 1 of the mode catalog: 2592x1944 with the table `ov5640_setting_full`. -/
def mode_full : ov5640_mode_info :=
  { width := 2592, height := 1944,
    data := ov5640_setting_full, data_size := ov5640_setting_full.length }

/-- The mode catalog `ov5640_mode_info_data`. -/
def ov5640_mode_info_data : List ov5640_mode_info := [mode_1080p, mode_full]

/-- Ways in which a C function of the driver can fail to return normally. -/
inductive Fault where
  | out_of_bounds (index : Nat)
  | null_pointer
  | out_of_fuel
deriving DecidableEq, Repr

/-- Modulus of the C type `unsigned int`. -/
def UINT_MOD : Nat := 2 ^ 32

/-! ## Mode selection -/

/-- The `for` loop of `ov5640_find_nearest_mode`, started at index `i`:
`for (...; i >= 0; i--) { if (data[i].width <= width && data[i].height <= height) break; }`
with `i` an `unsigned int`, so `i >= 0` always holds and `i--` wraps modulo
`2 ^ 32`.  Reading the catalog outside its bounds is a fault.  The result is the
value of `i` when the loop is left. -/
def find_nearest_loop (width height : Nat) : Nat → Nat → Except Fault Nat
  | 0, _ => .error .out_of_fuel
  | fuel + 1, i =>
    if 0 ≤ i then
      match ov5640_mode_info_data[i]? with
      | none => .error (.out_of_bounds i)
      | some m =>
        if m.width ≤ width ∧ m.height ≤ height then .ok i
        else find_nearest_loop width height fuel ((i + UINT_MOD - 1) % UINT_MOD)
    else .ok i

/-- The C function `ov5640_find_nearest_mode`.  The loop starts at
`ARRAY_SIZE(ov5640_mode_info_data) - 1`; afterwards `if (i < 0) i = 0;` on the
unsigned counter, and the entry at `i` is returned. -/
def ov5640_find_nearest_mode (fuel : Nat) (width height : Nat) :
    Except Fault ov5640_mode_info :=
  match find_nearest_loop width height fuel (ov5640_mode_info_data.length - 1) with
  | .error e => .error e
  | .ok i =>
    let i := if i < 0 then 0 else i
    match ov5640_mode_info_data[i]? with
    | none => .error (.out_of_bounds i)
    | some m => .ok m

/-! ## External collaborators -/

/-- The three supplies of the sensor (`io_regulator`, `analog_regulator`,
`core_regulator` of `struct ov5640`). -/
inductive Regulator where
  | io_regulator
  | analog_regulator
  | core_regulator
deriving DecidableEq, Repr

/-- The two control lines of the sensor (`enable_gpio`, `rst_gpio`). -/
inductive GpioLine where
  | enable_gpio
  | rst_gpio
deriving DecidableEq, Repr

/-- A call made by the driver into an external collaborator.  `i2c_transfer`
carries the message address and the bytes of the single write message;
`msm_cci_ctrl_write` carries the bus address, the register and the byte. -/
inductive HwOp where
  | regulator_enable (r : Regulator)
  | regulator_disable (r : Regulator)
  | clk_prepare_enable
  | clk_disable_unprepare
  | gpiod_set_value (line : GpioLine) (value : Nat)
  | i2c_transfer (addr : Nat) (buf : List Nat)
  | msm_cci_ctrl_write (i2c_addr : Nat) (reg : Nat) (val : Nat)
  | msm_cci_ctrl_init
  | msm_cci_ctrl_release
deriving DecidableEq, Repr

/-- The environment: the code returned by the `n`-th collaborator call (counting
from the start of the trace) when that call is `op`. -/
abbrev Env := Nat → HwOp → Int

/-- Everything outside `struct ov5640`: the physical state of the supplies, the
clock and the two control lines, the process-wide mutex `ov5640_lock`, and the
trace of collaborator calls made so far. -/
structure World where
  io_on : Bool
  analog_on : Bool
  core_on : Bool
  xclk_on : Bool
  enable_gpio : Nat
  rst_gpio : Nat
  ov5640_lock : Bool
  trace : List HwOp
deriving DecidableEq, Repr

/-- Modelled from the spec: the regulator, clock and GPIO subsystems, which the
spec treats as capability interfaces and whose code is not in the driver file.
An enable takes effect when it reports `0`; a regulator disable takes effect
unless it reports a negative code; the clock disable and the GPIO writes return
nothing and always take effect; bus and CCI calls do not change the supplies. -/
def hw_effect (op : HwOp) (ret : Int) (w : World) : World :=
  match op with
  | .regulator_enable .io_regulator => if ret = 0 then { w with io_on := true } else w
  | .regulator_enable .analog_regulator => if ret = 0 then { w with analog_on := true } else w
  | .regulator_enable .core_regulator => if ret = 0 then { w with core_on := true } else w
  | .regulator_disable .io_regulator => if ret < 0 then w else { w with io_on := false }
  | .regulator_disable .analog_regulator =>
    if ret < 0 then w else { w with analog_on := false }
  | .regulator_disable .core_regulator => if ret < 0 then w else { w with core_on := false }
  | .clk_prepare_enable => if ret = 0 then { w with xclk_on := true } else w
  | .clk_disable_unprepare => { w with xclk_on := false }
  | .gpiod_set_value .enable_gpio v => { w with enable_gpio := v }
  | .gpiod_set_value .rst_gpio v => { w with rst_gpio := v }
  | .i2c_transfer _ _ => w
  | .msm_cci_ctrl_write _ _ _ => w
  | .msm_cci_ctrl_init => w
  | .msm_cci_ctrl_release => w

/-- One collaborator call: the environment supplies the returned code, the call
is appended to the trace and its physical effect is applied. -/
def hw_call (env : Env) (w : World) (op : HwOp) : Int × World :=
  (env w.trace.length op,
   { hw_effect op (env w.trace.length op) w with trace := w.trace ++ [op] })

/-! ## The driver structure and its constants -/

/-- The fields of the C `struct v4l2_mbus_framefmt` used by the driver. -/
structure v4l2_mbus_framefmt where
  width : Nat
  height : Nat
  code : Nat
  field : Nat
  colorspace : Nat
deriving DecidableEq, Repr

/-- The C `struct v4l2_rect`. -/
structure v4l2_rect where
  left : Int
  top : Int
  width : Nat
  height : Nat
deriving DecidableEq, Repr

/-- The C `struct ov5640`, without the handles of the external collaborators.
`i2c_addr` is `i2c_client->addr`; `current_mode` is a pointer into the catalog
(`none` for the null pointer); `power_count` is a C `int`. -/
structure ov5640 where
  i2c_addr : Nat
  fmt : v4l2_mbus_framefmt
  crop : v4l2_rect
  current_mode : Option ov5640_mode_info
  aec_pk_manual : Nat
  timing_tc_reg20 : Nat
  timing_tc_reg21 : Nat
  power_count : Int
  hflip : Bool
  vflip : Bool
  use_cci : Bool
deriving DecidableEq, Repr

def OV5640_SYSTEM_CTRL0 : Nat := 0x3008
def OV5640_SYSTEM_CTRL0_START : Nat := 0x02
def OV5640_SYSTEM_CTRL0_STOP : Nat := 0x42
def OV5640_AWB_MANUAL_CONTROL : Nat := 0x3406
def OV5640_AEC_PK_MANUAL : Nat := 0x3503
def OV5640_TIMING_TC_REG20 : Nat := 0x3820
def OV5640_TIMING_TC_REG21 : Nat := 0x3821
def OV5640_PRE_ISP_TEST_SETTING_1 : Nat := 0x503d
def OV5640_TEST_PATTERN_MASK : Nat := 0x3
def OV5640_SDE_SAT_U : Nat := 0x5583
def OV5640_SDE_SAT_V : Nat := 0x5584

/-- Modelled from the spec: the kernel macro `BIT(n)`, the `unsigned long` value
`1UL << n`; its header is not part of the driver file. -/
def BIT (n : Nat) : Nat := 2 ^ n

/-- Largest value of the C type `unsigned long` (64-bit kernel). -/
def ULONG_MAX : Nat := 2 ^ 64 - 1

/-- The C operator `~` on an `unsigned long`. -/
def ulong_not (x : Nat) : Nat := ULONG_MAX - x % 2 ^ 64

/-- Conversion to the C type `u8`. -/
def to_u8 (x : Nat) : Nat := x % 256

/-- Conversion to the C type `u16`. -/
def to_u16 (x : Nat) : Nat := x % 65536

/-- Conversion of a C `s32` to `u32`. -/
def s32_to_u32 (x : Int) : Nat := (x % 2 ^ 32).toNat

/-- Wrap an integer into the range of the C type `int`. -/
def wrap_s32 (x : Int) : Int := (x + 2 ^ 31) % 2 ^ 32 - 2 ^ 31

def OV5640_AWB_MANUAL_ENABLE : Nat := BIT 0
def OV5640_AEC_MANUAL_ENABLE : Nat := BIT 0
def OV5640_AGC_MANUAL_ENABLE : Nat := BIT 1
def OV5640_SENSOR_VFLIP : Nat := BIT 1
def OV5640_ISP_VFLIP : Nat := BIT 2
def OV5640_ISP_MIRROR : Nat := BIT 2
def OV5640_SENSOR_MIRROR : Nat := BIT 1
def OV5640_TEST_PATTERN_ENABLE : Nat := BIT 7

/-- Modelled from the spec: the errno `EINVAL` (invalid request); the kernel
header that defines it is not part of the driver file. -/
def EINVAL : Int := 22

/-- Modelled from the spec: the menu value of automatic exposure
(`V4L2_EXPOSURE_AUTO`), defined in a kernel header outside the driver file. -/
def V4L2_EXPOSURE_AUTO : Nat := 0

/-- Modelled from the spec: the "trial" negotiation variant
(`V4L2_SUBDEV_FORMAT_TRY`), defined in a kernel header outside the driver file. -/
def V4L2_SUBDEV_FORMAT_TRY : Nat := 0

/-- Modelled from the spec: the "active" negotiation variant
(`V4L2_SUBDEV_FORMAT_ACTIVE`), defined in a kernel header outside the driver file. -/
def V4L2_SUBDEV_FORMAT_ACTIVE : Nat := 1

/-- Modelled from the spec: the crop selection target (`V4L2_SEL_TGT_CROP`),
defined in a kernel header outside the driver file. -/
def V4L2_SEL_TGT_CROP : Nat := 0

/-- Modelled from the spec: the single fixed pixel format
(`MEDIA_BUS_FMT_UYVY8_2X8`), defined in a kernel header outside the driver file. -/
def MEDIA_BUS_FMT_UYVY8_2X8 : Nat := 0x2006

/-- Modelled from the spec: progressive field order (`V4L2_FIELD_NONE`), defined
in a kernel header outside the driver file. -/
def V4L2_FIELD_NONE : Nat := 1

/-- Modelled from the spec: the sRGB colorspace (`V4L2_COLORSPACE_SRGB`), defined
in a kernel header outside the driver file. -/
def V4L2_COLORSPACE_SRGB : Nat := 8

/-! ## Regulators -/

/-- The C function `ov5640_regulators_enable`. -/
def ov5640_regulators_enable (env : Env) (w : World) : Int × World :=
  let r1 := hw_call env w (.regulator_enable .io_regulator)
  if r1.1 < 0 then (r1.1, r1.2)
  else
    let r2 := hw_call env r1.2 (.regulator_enable .analog_regulator)
    if r2.1 ≠ 0 then
      (r2.1, (hw_call env r2.2 (.regulator_disable .io_regulator)).2)
    else
      let r3 := hw_call env r2.2 (.regulator_enable .core_regulator)
      if r3.1 ≠ 0 then
        (r3.1, (hw_call env (hw_call env r3.2 (.regulator_disable .analog_regulator)).2
                  (.regulator_disable .io_regulator)).2)
      else (0, r3.2)

/-- The C function `ov5640_regulators_disable`: the three disables are issued
whatever the earlier ones returned. -/
def ov5640_regulators_disable (env : Env) (w : World) : World :=
  let w1 := (hw_call env w (.regulator_disable .core_regulator)).2
  let w2 := (hw_call env w1 (.regulator_disable .analog_regulator)).2
  (hw_call env w2 (.regulator_disable .io_regulator)).2

/-! ## Register transport -/

/-- The collaborator call that writes byte `val` to register `reg` of the device
at bus address `i2c_addr`: through the CCI controller when `use_cci` is set,
otherwise one three-byte message `{reg >> 8, reg & 0xff, val}` to `i2c_addr >> 1`. -/
def write_op (use_cci : Bool) (i2c_addr reg val : Nat) : HwOp :=
  if use_cci then .msm_cci_ctrl_write i2c_addr reg val
  else .i2c_transfer (i2c_addr >>> 1) [(reg &&& 0xff00) >>> 8, reg &&& 0xff, val]

/-- The C function `ov5640_write_reg_to` (`u16 reg, u8 val, u16 i2c_addr`); the
code of the backend primitive is returned unchanged. -/
def ov5640_write_reg_to (env : Env) (d : ov5640) (w : World) (reg val i2c_addr : Nat) :
    Int × World :=
  hw_call env w (write_op d.use_cci (to_u16 i2c_addr) (to_u16 reg) (to_u8 val))

/-- The C function `ov5640_write_reg` (`u16 reg, u8 val`), addressed to
`i2c_client->addr`; the code of the backend primitive is returned unchanged. -/
def ov5640_write_reg (env : Env) (d : ov5640) (w : World) (reg val : Nat) : Int × World :=
  hw_call env w (write_op d.use_cci (to_u16 d.i2c_addr) (to_u16 reg) (to_u8 val))

/-- The loop of `ov5640_set_register_array` over the entries still to be written:
the first write that returns a negative code ends the loop with that code. -/
def set_register_array_loop (env : Env) (d : ov5640) : World → List reg_value → Int × World
  | w, [] => (0, w)
  | w, s :: rest =>
    let r := ov5640_write_reg env d w s.reg s.val
    if r.1 < 0 then (r.1, r.2) else set_register_array_loop env d r.2 rest

/-- The C function `ov5640_set_register_array`: the first `num_settings` entries
of `settings` are written in order (every caller passes the size of the table). -/
def ov5640_set_register_array (env : Env) (d : ov5640) (w : World)
    (settings : List reg_value) (num_settings : Nat) : Int × World :=
  set_register_array_loop env d w (settings.take num_settings)

/-! ## Control setters -/

/-- The C function `ov5640_set_aec_mode` (`u32 mode`). -/
def ov5640_set_aec_mode (env : Env) (d : ov5640) (w : World) (mode : Nat) :
    Int × World × ov5640 :=
  let val := to_u8 d.aec_pk_manual
  let val :=
    if mode = V4L2_EXPOSURE_AUTO then to_u8 (val &&& ulong_not OV5640_AEC_MANUAL_ENABLE)
    else to_u8 (val ||| OV5640_AEC_MANUAL_ENABLE)
  let r := ov5640_write_reg env d w OV5640_AEC_PK_MANUAL val
  (r.1, r.2, if r.1 = 0 then { d with aec_pk_manual := val } else d)

/-- The C function `ov5640_set_agc_mode` (`u32 enable`). -/
def ov5640_set_agc_mode (env : Env) (d : ov5640) (w : World) (enable : Nat) :
    Int × World × ov5640 :=
  let val := to_u8 d.aec_pk_manual
  let val :=
    if enable ≠ 0 then to_u8 (val &&& ulong_not OV5640_AGC_MANUAL_ENABLE)
    else to_u8 (val ||| OV5640_AGC_MANUAL_ENABLE)
  let r := ov5640_write_reg env d w OV5640_AEC_PK_MANUAL val
  (r.1, r.2, if r.1 = 0 then { d with aec_pk_manual := val } else d)

/-- The C function `ov5640_set_saturation` (`s32 value`); `reg_value` is a `u32`. -/
def ov5640_set_saturation (env : Env) (d : ov5640) (w : World) (value : Int) : Int × World :=
  let reg_value := s32_to_u32 (value * 0x10 + 0x40)
  let r := ov5640_write_reg env d w OV5640_SDE_SAT_U reg_value
  if r.1 < 0 then (r.1, r.2) else ov5640_write_reg env d r.2 OV5640_SDE_SAT_V reg_value

/-- The C function `ov5640_set_hflip` (`s32 value`). -/
def ov5640_set_hflip (env : Env) (d : ov5640) (w : World) (value : Int) :
    Int × World × ov5640 :=
  let val := to_u8 d.timing_tc_reg21
  let val :=
    if value = 0 then to_u8 (val &&& ulong_not (OV5640_SENSOR_MIRROR ||| OV5640_ISP_MIRROR))
    else to_u8 (val ||| (OV5640_SENSOR_MIRROR ||| OV5640_ISP_MIRROR))
  let r := ov5640_write_reg env d w OV5640_TIMING_TC_REG21 val
  (r.1, r.2, if r.1 = 0 then { d with timing_tc_reg21 := val } else d)

/-- The C function `ov5640_set_vflip` (`s32 value`). -/
def ov5640_set_vflip (env : Env) (d : ov5640) (w : World) (value : Int) :
    Int × World × ov5640 :=
  let val := to_u8 d.timing_tc_reg20
  let val :=
    if value = 0 then to_u8 (val &&& ulong_not (OV5640_SENSOR_VFLIP ||| OV5640_ISP_VFLIP))
    else to_u8 (val ||| (OV5640_SENSOR_VFLIP ||| OV5640_ISP_VFLIP))
  let r := ov5640_write_reg env d w OV5640_TIMING_TC_REG20 val
  (r.1, r.2, if r.1 = 0 then { d with timing_tc_reg20 := val } else d)

/-- The C function `ov5640_set_test_pattern` (`s32 value`). -/
def ov5640_set_test_pattern (env : Env) (d : ov5640) (w : World) (value : Int) :
    Int × World :=
  let val :=
    if value ≠ 0 then
      to_u8 (to_u8 (s32_to_u32 (value - 1) &&& OV5640_TEST_PATTERN_MASK)
        ||| OV5640_TEST_PATTERN_ENABLE)
    else 0
  ov5640_write_reg env d w OV5640_PRE_ISP_TEST_SETTING_1 val

/-- The C function `ov5640_set_awb` (`s32 enable_auto`). -/
def ov5640_set_awb (env : Env) (d : ov5640) (w : World) (enable_auto : Int) : Int × World :=
  let val := if enable_auto = 0 then to_u8 OV5640_AWB_MANUAL_ENABLE else 0
  ov5640_write_reg env d w OV5640_AWB_MANUAL_CONTROL val

/-- The control identifiers `ov5640_s_ctrl` switches on (`V4L2_CID_SATURATION`,
`V4L2_CID_AUTO_WHITE_BALANCE`, `V4L2_CID_AUTOGAIN`, `V4L2_CID_EXPOSURE_AUTO`,
`V4L2_CID_TEST_PATTERN`, `V4L2_CID_HFLIP`, `V4L2_CID_VFLIP`), and any other
identifier, which takes the `default` branch. -/
inductive CtrlId where
  | saturation
  | auto_white_balance
  | autogain
  | exposure_auto
  | test_pattern
  | hflip
  | vflip
  | other (id : Nat)
deriving DecidableEq, Repr

/-- The C function `ov5640_s_ctrl`, for the control `id` with value `val`
(`ctrl->val`, an `s32`). -/
def ov5640_s_ctrl (env : Env) (d : ov5640) (w : World) (id : CtrlId) (val : Int) :
    Int × World × ov5640 :=
  if d.power_count = 0 then (0, w, d)
  else
    match id with
    | .saturation =>
      let r := ov5640_set_saturation env d w val
      (r.1, r.2, d)
    | .auto_white_balance =>
      let r := ov5640_set_awb env d w val
      (r.1, r.2, d)
    | .autogain => ov5640_set_agc_mode env d w (s32_to_u32 val)
    | .exposure_auto => ov5640_set_aec_mode env d w (s32_to_u32 val)
    | .test_pattern =>
      let r := ov5640_set_test_pattern env d w val
      (r.1, r.2, d)
    | .hflip => ov5640_set_hflip env d w val
    | .vflip => ov5640_set_vflip env d w val
    | .other _ => (-EINVAL, w, d)

/-! ## Power -/

/-- The C function `ov5640_set_power_on`. -/
def ov5640_set_power_on (env : Env) (w : World) : Int × World :=
  let r := ov5640_regulators_enable env w
  if r.1 < 0 then (r.1, r.2)
  else
    let c := hw_call env r.2 .clk_prepare_enable
    if c.1 < 0 then (c.1, ov5640_regulators_disable env c.2)
    else
      let w1 := (hw_call env c.2 (.gpiod_set_value .enable_gpio 1)).2
      let w2 := (hw_call env w1 (.gpiod_set_value .rst_gpio 0)).2
      (0, w2)

/-- The C function `ov5640_set_power_off`. -/
def ov5640_set_power_off (env : Env) (w : World) : World :=
  let w1 := (hw_call env w (.gpiod_set_value .rst_gpio 1)).2
  let w2 := (hw_call env w1 (.gpiod_set_value .enable_gpio 0)).2
  let w3 := (hw_call env w2 .clk_disable_unprepare).2
  ov5640_regulators_disable env w3

/-- The `exit:` label of `ov5640_s_power`: the CCI controller is released on a
power-off request, and `ret` is returned. -/
def s_power_exit (env : Env) (w : World) (d : ov5640) (on_ : Bool) (ret : Int) :
    Int × World × ov5640 :=
  (ret, if !on_ && d.use_cci then (hw_call env w .msm_cci_ctrl_release).2 else w, d)

/-- The tail of `ov5640_s_power` from `/* Update the power count. */` on:
`power_count += on ? 1 : -1` on a C `int`, then the `exit:` label. -/
def s_power_update (env : Env) (w : World) (d : ov5640) (on_ : Bool) (ret : Int) :
    Int × World × ov5640 :=
  s_power_exit env w
    { d with power_count := wrap_s32 (d.power_count + (if on_ then 1 else -1)) } on_ ret

/-- The part of the power-up branch of `ov5640_s_power` that follows
`mutex_unlock(&ov5640_lock)`: the initialization program, then the stop write. -/
def s_power_init (env : Env) (w : World) (d : ov5640) : Int × World × ov5640 :=
  let i := ov5640_set_register_array env d w ov5640_global_init_setting
    ov5640_global_init_setting.length
  if i.1 < 0 then s_power_exit env (ov5640_set_power_off env i.2) d true i.1
  else
    let s := ov5640_write_reg env d i.2 OV5640_SYSTEM_CTRL0 OV5640_SYSTEM_CTRL0_STOP
    if s.1 < 0 then s_power_exit env (ov5640_set_power_off env s.2) d true s.1
    else s_power_update env s.2 d true s.1

/-- The power-up branch of `ov5640_s_power` (`power_count == !on` with `on`
set).  `mutex_lock(&ov5640_lock)` never returns when the lock is already held
(`none`).  A failure of `ov5640_set_power_on` goes to `exit:` without unlocking. -/
def s_power_up (env : Env) (w : World) (d : ov5640) : Option (Int × World × ov5640) :=
  if w.ov5640_lock then none
  else
    let p := ov5640_set_power_on env { w with ov5640_lock := true }
    if p.1 < 0 then some (s_power_exit env p.2 d true p.1)
    else if d.i2c_addr ≠ 0x78 then
      let a := ov5640_write_reg_to env d p.2 0x3100 d.i2c_addr 0x78
      if a.1 < 0 then
        some (s_power_exit env
          { ov5640_set_power_off env a.2 with ov5640_lock := false } d true a.1)
      else some (s_power_init env { a.2 with ov5640_lock := false } d)
    else some (s_power_init env { p.2 with ov5640_lock := false } d)

/-- The C function `ov5640_s_power`; `on_` is the truth value (`on`) of the C argument.
The result is `none` when the call never returns. -/
def ov5640_s_power (env : Env) (w : World) (d : ov5640) (on_ : Bool) :
    Option (Int × World × ov5640) :=
  let r0 := if on_ && d.use_cci then hw_call env w .msm_cci_ctrl_init else (0, w)
  if r0.1 < 0 then some (s_power_exit env r0.2 d on_ r0.1)
  else if d.power_count = (if on_ then 0 else 1) then
    if on_ then s_power_up env r0.2 d
    else some (s_power_update env (ov5640_set_power_off env r0.2) d on_ r0.1)
  else some (s_power_update env r0.2 d on_ r0.1)

/-! ## Format negotiation -/

/-- The part of the C `struct v4l2_subdev_pad_config` of the single pad: the
trial format and the trial crop rectangle. -/
structure v4l2_subdev_pad_config where
  try_fmt : v4l2_mbus_framefmt
  try_crop : v4l2_rect
deriving DecidableEq, Repr

/-- The C `struct v4l2_subdev_format` (the pad index is not modelled: the
device has one pad). -/
structure v4l2_subdev_format where
  which : Nat
  format : v4l2_mbus_framefmt
deriving DecidableEq, Repr

/-- Where a format pointer returned by `__ov5640_get_pad_format` points. -/
inductive FormatRef where
  | try_fmt
  | dev_fmt
deriving DecidableEq, Repr

/-- Where a crop pointer returned by `__ov5640_get_pad_crop` points. -/
inductive CropRef where
  | try_crop
  | dev_crop
deriving DecidableEq, Repr

/-- The C function `__ov5640_get_pad_format`: the trial format of the pad
configuration, or `&ov5640->fmt` (also in the `default` branch). -/
def __ov5640_get_pad_format (which : Nat) : FormatRef :=
  if which = V4L2_SUBDEV_FORMAT_TRY then .try_fmt
  else if which = V4L2_SUBDEV_FORMAT_ACTIVE then .dev_fmt
  else .dev_fmt

/-- The C function `__ov5640_get_pad_crop`: the trial crop of the pad
configuration, `&ov5640->crop`, or `NULL` in the `default` branch. -/
def __ov5640_get_pad_crop (which : Nat) : Option CropRef :=
  if which = V4L2_SUBDEV_FORMAT_TRY then some .try_crop
  else if which = V4L2_SUBDEV_FORMAT_ACTIVE then some .dev_crop
  else none

/-- Read through a format pointer. -/
def FormatRef.read (r : FormatRef) (d : ov5640) (cfg : v4l2_subdev_pad_config) :
    v4l2_mbus_framefmt :=
  match r with
  | .try_fmt => cfg.try_fmt
  | .dev_fmt => d.fmt

/-- Read through a crop pointer. -/
def CropRef.read (r : CropRef) (d : ov5640) (cfg : v4l2_subdev_pad_config) : v4l2_rect :=
  match r with
  | .try_crop => cfg.try_crop
  | .dev_crop => d.crop

/-- The C function `ov5640_get_format`. -/
def ov5640_get_format (d : ov5640) (cfg : v4l2_subdev_pad_config)
    (format : v4l2_subdev_format) : Int × v4l2_subdev_format :=
  (0, { format with format := (__ov5640_get_pad_format format.which).read d cfg })

/-- The C function `ov5640_set_format`: the crop pointer is taken, the nearest
mode is looked up, its size is stored through `__crop`, `current_mode` is
assigned for an active request, and the format is stored through `__format`.
The result is the returned code, the device, the pad configuration and the
format handed back. -/
def ov5640_set_format (fuel : Nat) (d : ov5640) (cfg : v4l2_subdev_pad_config)
    (format : v4l2_subdev_format) :
    Except Fault (Int × ov5640 × v4l2_subdev_pad_config × v4l2_subdev_format) :=
  let crop_ref := __ov5640_get_pad_crop format.which
  match ov5640_find_nearest_mode fuel format.format.width format.format.height with
  | .error e => .error e
  | .ok new_mode =>
    match crop_ref with
    | none => .error .null_pointer
    | some cr =>
      let crop : v4l2_rect :=
        { cr.read d cfg with width := new_mode.width, height := new_mode.height }
      let d1 : ov5640 :=
        match cr with
        | .try_crop => d
        | .dev_crop => { d with crop := crop }
      let cfg1 : v4l2_subdev_pad_config :=
        match cr with
        | .try_crop => { cfg with try_crop := crop }
        | .dev_crop => cfg
      let d2 : ov5640 :=
        if format.which = V4L2_SUBDEV_FORMAT_ACTIVE then
          { d1 with current_mode := some new_mode }
        else d1
      let fr := __ov5640_get_pad_format format.which
      let fmt : v4l2_mbus_framefmt :=
        { fr.read d2 cfg1 with
          width := crop.width, height := crop.height, code := MEDIA_BUS_FMT_UYVY8_2X8,
          field := V4L2_FIELD_NONE, colorspace := V4L2_COLORSPACE_SRGB }
      let d3 : ov5640 :=
        match fr with
        | .try_fmt => d2
        | .dev_fmt => { d2 with fmt := fmt }
      let cfg2 : v4l2_subdev_pad_config :=
        match fr with
        | .try_fmt => { cfg1 with try_fmt := fmt }
        | .dev_fmt => cfg1
      .ok (0, d3, cfg2, { format with format := fmt })

/-- The C function `ov5640_get_selection`, for the selection target `target` and
the negotiation variant `which`; the rectangle is `sel->r` on return. -/
def ov5640_get_selection (d : ov5640) (cfg : v4l2_subdev_pad_config) (target which : Nat)
    (r : v4l2_rect) : Except Fault (Int × v4l2_rect) :=
  if target ≠ V4L2_SEL_TGT_CROP then .ok (-EINVAL, r)
  else
    match __ov5640_get_pad_crop which with
    | none => .error .null_pointer
    | some cr => .ok (0, cr.read d cfg)

/-! ## States and runs used by the statements -/

/-- The device right after `devm_kzalloc` in `ov5640_probe` with its bus address
and flags filled in: every other field is zero. -/
def ov5640.attached (i2c_addr : Nat) (use_cci hflip vflip : Bool) : ov5640 :=
  { i2c_addr := i2c_addr
    fmt := { width := 0, height := 0, code := 0, field := 0, colorspace := 0 }
    crop := { left := 0, top := 0, width := 0, height := 0 }
    current_mode := none
    aec_pk_manual := 0
    timing_tc_reg20 := 0
    timing_tc_reg21 := 0
    power_count := 0
    hflip := hflip
    vflip := vflip
    use_cci := use_cci }

/-- The world at attach: supplies and clock off, the enable line requested low
(`GPIOD_OUT_LOW`), the reset line requested high (`GPIOD_OUT_HIGH`), the
process-wide lock free, no collaborator call made yet. -/
def World.attached : World :=
  { io_on := false, analog_on := false, core_on := false, xclk_on := false
    enable_gpio := 0, rst_gpio := 1, ov5640_lock := false, trace := [] }

/-- The sensor is physically powered on: the three supplies and the clock are
enabled, the enable line is driven to 1 and the reset line to 0. -/
def World.powered_on (w : World) : Prop :=
  w.io_on = true ∧ w.analog_on = true ∧ w.core_on = true ∧ w.xclk_on = true ∧
    w.enable_gpio = 1 ∧ w.rst_gpio = 0

instance (w : World) : Decidable w.powered_on := by
  unfold World.powered_on
  infer_instance

/-- A sequence of `ov5640_s_power` calls, one after the other; `none` when one
of the calls never returns. -/
def power_run (env : Env) : World → ov5640 → List Bool → Option (World × ov5640)
  | w, d, [] => some (w, d)
  | w, d, on_ :: rest =>
    match ov5640_s_power env w d on_ with
    | none => none
    | some r => power_run env r.2.1 r.2.2 rest

/-! ## Vocabulary of the statements about mode selection -/

/-- A catalog entry fits a request when its width and height are both at most
the requested values. -/
def fits (m : ov5640_mode_info) (width height : Nat) : Prop :=
  m.width ≤ width ∧ m.height ≤ height

instance (m : ov5640_mode_info) (width height : Nat) : Decidable (fits m width height) := by
  unfold fits
  infer_instance

/-- The search returns the lowest-resolution catalog entry that fits the request. -/
def returns_lowest_fit (fuel width height : Nat) : Prop :=
  ∃ m, ov5640_find_nearest_mode fuel width height = .ok m ∧ m ∈ ov5640_mode_info_data ∧
    fits m width height ∧
    ∀ n ∈ ov5640_mode_info_data, fits n width height → m.width ≤ n.width ∧ m.height ≤ n.height

/-- The search returns the highest-resolution catalog entry that fits the request. -/
def returns_highest_fit (fuel width height : Nat) : Prop :=
  ∃ m, ov5640_find_nearest_mode fuel width height = .ok m ∧ m ∈ ov5640_mode_info_data ∧
    fits m width height ∧
    ∀ n ∈ ov5640_mode_info_data, fits n width height → n.width ≤ m.width ∧ n.height ≤ m.height

/-! ## Vocabulary of the statements about the shadow-backed controls -/

/-- The four control setters that keep a shadow byte. -/
inductive ShadowSetter where
  | aec_mode
  | agc_mode
  | hflip
  | vflip
deriving DecidableEq, Repr

/-- The setter as `ov5640_s_ctrl` calls it with the control value `val`. -/
def ShadowSetter.run (s : ShadowSetter) (env : Env) (d : ov5640) (w : World) (val : Int) :
    Int × World × ov5640 :=
  match s with
  | .aec_mode => ov5640_set_aec_mode env d w (s32_to_u32 val)
  | .agc_mode => ov5640_set_agc_mode env d w (s32_to_u32 val)
  | .hflip => ov5640_set_hflip env d w val
  | .vflip => ov5640_set_vflip env d w val

/-- The register of the setter. -/
def ShadowSetter.register (s : ShadowSetter) : Nat :=
  match s with
  | .aec_mode => OV5640_AEC_PK_MANUAL
  | .agc_mode => OV5640_AEC_PK_MANUAL
  | .hflip => OV5640_TIMING_TC_REG21
  | .vflip => OV5640_TIMING_TC_REG20

/-- The byte the setter computes from its shadow and the control value `val`
(the local `u8 val` of the C function at the time of the write). -/
def ShadowSetter.byte (s : ShadowSetter) (d : ov5640) (val : Int) : Nat :=
  match s with
  | .aec_mode =>
    if s32_to_u32 val = V4L2_EXPOSURE_AUTO then
      to_u8 (to_u8 d.aec_pk_manual &&& ulong_not OV5640_AEC_MANUAL_ENABLE)
    else to_u8 (to_u8 d.aec_pk_manual ||| OV5640_AEC_MANUAL_ENABLE)
  | .agc_mode =>
    if s32_to_u32 val ≠ 0 then
      to_u8 (to_u8 d.aec_pk_manual &&& ulong_not OV5640_AGC_MANUAL_ENABLE)
    else to_u8 (to_u8 d.aec_pk_manual ||| OV5640_AGC_MANUAL_ENABLE)
  | .hflip =>
    if val = 0 then
      to_u8 (to_u8 d.timing_tc_reg21 &&& ulong_not (OV5640_SENSOR_MIRROR ||| OV5640_ISP_MIRROR))
    else to_u8 (to_u8 d.timing_tc_reg21 ||| (OV5640_SENSOR_MIRROR ||| OV5640_ISP_MIRROR))
  | .vflip =>
    if val = 0 then
      to_u8 (to_u8 d.timing_tc_reg20 &&& ulong_not (OV5640_SENSOR_VFLIP ||| OV5640_ISP_VFLIP))
    else to_u8 (to_u8 d.timing_tc_reg20 ||| (OV5640_SENSOR_VFLIP ||| OV5640_ISP_VFLIP))

/-- The device with the shadow byte of the setter replaced. -/
def ShadowSetter.store (s : ShadowSetter) (d : ov5640) (byte : Nat) : ov5640 :=
  match s with
  | .aec_mode => { d with aec_pk_manual := byte }
  | .agc_mode => { d with aec_pk_manual := byte }
  | .hflip => { d with timing_tc_reg21 := byte }
  | .vflip => { d with timing_tc_reg20 := byte }

/-- An environment in which every collaborator call reports `0`, except
`i2c_transfer`, which reports the number of messages transferred, `1`. -/
def env_i2c_ok : Env := fun _ op =>
  match op with
  | .i2c_transfer _ _ => 1
  | _ => 0

/-- An environment in which every collaborator call reports the error `-5`. -/
def env_all_fail : Env := fun _ _ => -5

/-! ## Vocabulary of the statements about power -/

/-- The collaborator call by which `ov5640_write_reg` writes the table entry `s`. -/
def reg_write_op (d : ov5640) (s : reg_value) : HwOp :=
  write_op d.use_cci (to_u16 d.i2c_addr) (to_u16 s.reg) (to_u8 s.val)

/-- The collaborator calls of `ov5640_set_power_on` when each of them succeeds. -/
def power_on_ops : List HwOp :=
  [.regulator_enable .io_regulator, .regulator_enable .analog_regulator,
   .regulator_enable .core_regulator, .clk_prepare_enable,
   .gpiod_set_value .enable_gpio 1, .gpiod_set_value .rst_gpio 0]

/-- The collaborator calls of `ov5640_set_power_off`. -/
def power_off_ops : List HwOp :=
  [.gpiod_set_value .rst_gpio 1, .gpiod_set_value .enable_gpio 0, .clk_disable_unprepare,
   .regulator_disable .core_regulator, .regulator_disable .analog_regulator,
   .regulator_disable .io_regulator]

/-- The register writes that follow the physical power-up on the 0 to 1 edge: the
address reassignment (when the bus address differs from `0x78`), the
initialization program in table order, and the stop write. -/
def power_up_writes (d : ov5640) : List HwOp :=
  (if d.i2c_addr ≠ 0x78 then [write_op d.use_cci (to_u16 0x78) (to_u16 0x3100) (to_u8 d.i2c_addr)]
    else []) ++
  ov5640_global_init_setting.map (reg_write_op d) ++
  [reg_write_op d ⟨OV5640_SYSTEM_CTRL0, OV5640_SYSTEM_CTRL0_STOP⟩]

/-- The collaborator calls of `ov5640_s_power(true)` on the 0 to 1 edge when each
of them succeeds. -/
def power_up_script (d : ov5640) : List HwOp :=
  (if d.use_cci then [.msm_cci_ctrl_init] else []) ++ power_on_ops ++ power_up_writes d

/-- The collaborator calls of `ov5640_s_power(false)` on the 1 to 0 edge. -/
def power_down_script (d : ov5640) : List HwOp :=
  power_off_ops ++ (if d.use_cci then [.msm_cci_ctrl_release] else [])

/-- The collaborator calls of a successful `ov5640_s_power` call off the edges:
only the CCI controller is initialised or released. -/
def idle_script (d : ov5640) (on_ : Bool) : List HwOp :=
  if d.use_cci then (if on_ then [.msm_cci_ctrl_init] else [.msm_cci_ctrl_release]) else []

/-- The call is a regulator, clock, GPIO or register operation. -/
def HwOp.touches_sensor : HwOp → Bool
  | .msm_cci_ctrl_init => false
  | .msm_cci_ctrl_release => false
  | _ => true

/-- The code `ret` reports success of the call: `0` for the regulator and clock
calls that return a code, any non-negative code for the bus and CCI calls;
the calls whose result the driver cannot observe always succeed. -/
def HwOp.succeeded (op : HwOp) (ret : Int) : Prop :=
  match op with
  | .regulator_enable _ => ret = 0
  | .regulator_disable _ => ret = 0
  | .clk_prepare_enable => ret = 0
  | .i2c_transfer _ _ => 0 ≤ ret
  | .msm_cci_ctrl_write _ _ _ => 0 ≤ ret
  | .msm_cci_ctrl_init => 0 ≤ ret
  | .clk_disable_unprepare => True
  | .gpiod_set_value _ _ => True
  | .msm_cci_ctrl_release => True

/-- Every collaborator call succeeds. -/
def all_succeed (env : Env) : Prop := ∀ n op, HwOp.succeeded op (env n op)

/-- The regulator and clock enables report `0` or a negative code. -/
def conforming (env : Env) : Prop :=
  ∀ n, (∀ r, env n (.regulator_enable r) ≤ 0) ∧ env n .clk_prepare_enable ≤ 0

/-- The supplies and the clock are all disabled. -/
def World.supplies_off (w : World) : Prop :=
  w.io_on = false ∧ w.analog_on = false ∧ w.core_on = false ∧ w.xclk_on = false

/-- Every release in the sequence has a matching earlier acquire: read from the
left with `depth` acquires outstanding, no prefix has more releases than
acquires. -/
def balanced_from : Nat → List Bool → Prop
  | _, [] => True
  | depth, true :: rest => balanced_from (depth + 1) rest
  | depth, false :: rest => 0 < depth ∧ balanced_from (depth - 1) rest

/-- Number of acquires outstanding after the sequence, starting from `depth`. -/
def depth_after : Nat → List Bool → Nat
  | depth, [] => depth
  | depth, true :: rest => depth_after (depth + 1) rest
  | depth, false :: rest => depth_after (depth - 1) rest

/-- No `ov5640_s_power(false)` of the run is issued while `power_count` is 0 or
less. -/
def releases_held (env : Env) : World → ov5640 → List Bool → Prop
  | _, _, [] => True
  | w, d, on_ :: rest =>
    (on_ = false → 0 < d.power_count) ∧
      match ov5640_s_power env w d on_ with
      | none => True
      | some r => releases_held env r.2.1 r.2.2 rest

/-- The invariant linking the count and the hardware: with a positive
`power_count` the sensor is powered on; otherwise the enable line is at 0 and
the reset line at 1. -/
def power_inv (w : World) (d : ov5640) : Prop :=
  (0 < d.power_count → w.powered_on) ∧
    (d.power_count ≤ 0 → w.enable_gpio = 0 ∧ w.rst_gpio = 1)

/-- No regulator disable reports a failure. -/
def disables_succeed (env : Env) : Prop := ∀ n r, 0 ≤ env n (.regulator_disable r)

/-- The clock is disabled, and the three supplies are disabled as well when no
regulator disable of the environment fails. -/
def World.off_under (env : Env) (w : World) : Prop :=
  w.xclk_on = false ∧
    (disables_succeed env → w.io_on = false ∧ w.analog_on = false ∧ w.core_on = false)

/-- An environment in which the collaborator call number `k` reports the error
`-5` and every other call reports `0`. -/
def env_fail_at (k : Nat) : Env := fun n _ => if n = k then -5 else 0

/-! ## Streaming and detach -/

/-- The C function `ov5640_s_stream`; `enable` is the truth value of the C
argument.  `ctrl_setup` stands for `v4l2_ctrl_handler_setup(&ov5640->ctrls)`,
the control framework's re-application of the cached control values, whose
code is outside the driver file: it is given the world and the device and
returns a code together with the world and the device it leaves.  Reading
through a null `current_mode` is a fault. -/
def ov5640_s_stream (env : Env) (ctrl_setup : World → ov5640 → Int × World × ov5640)
    (d : ov5640) (w : World) (enable : Bool) : Except Fault (Int × World × ov5640) :=
  if enable then
    match d.current_mode with
    | none => .error .null_pointer
    | some m =>
      let a := ov5640_set_register_array env d w m.data m.data_size
      if a.1 < 0 then .ok (a.1, a.2, d)
      else
        let c := ctrl_setup a.2 d
        if c.1 < 0 then .ok (c.1, c.2.1, c.2.2)
        else
          let s := ov5640_write_reg env c.2.2 c.2.1 OV5640_SYSTEM_CTRL0
            OV5640_SYSTEM_CTRL0_START
          if s.1 < 0 then .ok (s.1, s.2, c.2.2) else .ok (0, s.2, c.2.2)
  else
    let s := ov5640_write_reg env d w OV5640_SYSTEM_CTRL0 OV5640_SYSTEM_CTRL0_STOP
    if s.1 < 0 then .ok (s.1, s.2, d) else .ok (0, s.2, d)

/-- A call of `ov5640_remove` into the media framework or the mutex API; none
of them is a regulator, clock, GPIO or bus call. -/
inductive FrameworkCall where
  | v4l2_async_unregister_subdev
  | media_entity_cleanup
  | v4l2_ctrl_handler_free
  | mutex_destroy
deriving DecidableEq, Repr

/-- The C function `ov5640_remove`: four framework calls, in order, and the
return of `0`.  No collaborator call of the `World` is made and no field of the
device is written. -/
def ov5640_remove (w : World) (d : ov5640) : Int × World × ov5640 × List FrameworkCall :=
  (0, w, d,
   [.v4l2_async_unregister_subdev, .media_entity_cleanup, .v4l2_ctrl_handler_free,
    .mutex_destroy])

/-! ## Vocabulary of the statements about streaming, power order and detach -/

/-- The byte `ov5640_set_saturation` hands to `ov5640_write_reg` for the control
value `value`: the `u32` `value * 0x10 + 0x40` converted to `u8`. -/
def saturation_byte (value : Int) : Nat := to_u8 (s32_to_u32 (value * 0x10 + 0x40))

/-- The call that undoes a power call: an enable becomes the disable of the same
supply or clock, a line driven to `v` is driven to `1 - v`. -/
def HwOp.inverse : HwOp → HwOp
  | .regulator_enable r => .regulator_disable r
  | .regulator_disable r => .regulator_enable r
  | .clk_prepare_enable => .clk_disable_unprepare
  | .clk_disable_unprepare => .clk_prepare_enable
  | .gpiod_set_value line v => .gpiod_set_value line (1 - v)
  | op => op

/-- The call is a register write, through either backend. -/
def HwOp.is_register_write : HwOp → Bool
  | .i2c_transfer _ _ => true
  | .msm_cci_ctrl_write _ _ _ => true
  | _ => false

/-- An environment in which every collaborator call reports `0`. -/
def env_zero : Env := fun _ _ => 0

/-- A powered device (`power_count = 1`) on the generic register bus at address
`0x78` whose shadow `timing_tc_reg20` is `b`. -/
def powered_with_reg20 (b : Nat) : ov5640 :=
  { ov5640.attached 0x78 false false false with timing_tc_reg20 := b, power_count := 1 }

/-- The world right after the register program of mode `m` has been written in
full from the world `w`: the first `data_size` entries of the table, in table
order, appended to the trace. -/
def after_mode_program (d : ov5640) (w : World) (m : ov5640_mode_info) : World :=
  { w with trace := w.trace ++ (m.data.take m.data_size).map (reg_write_op d) }

/-- The write of the start value `0x02` to register `0x3008`. -/
def start_op (d : ov5640) : HwOp :=
  reg_write_op d ⟨OV5640_SYSTEM_CTRL0, OV5640_SYSTEM_CTRL0_START⟩

/-- The write of the stop value `0x42` to register `0x3008`. -/
def stop_op (d : ov5640) : HwOp :=
  reg_write_op d ⟨OV5640_SYSTEM_CTRL0, OV5640_SYSTEM_CTRL0_STOP⟩

/-- A world in which the sensor is physically powered on. -/
def World.powered : World :=
  { World.attached with
      io_on := true, analog_on := true, core_on := true, xclk_on := true,
      enable_gpio := 1, rst_gpio := 0 }

/-- A control re-synchronisation that re-applies one control, the vertical flip
with the cached value 0, through `ov5640_s_ctrl`. -/
def resync_vflip_off (env : Env) (w : World) (d : ov5640) : Int × World × ov5640 :=
  ov5640_s_ctrl env d w .vflip 0

/-- A powered device on the generic register bus whose current mode is the
1920x1080 entry of the catalog. -/
def streaming_device : ov5640 :=
  { powered_with_reg20 0x40 with current_mode := some mode_1080p }

/-! ## Mode selection -/

theorem find_nearest_loop_full (fuel width height : Nat) (hw : 2592 ≤ width)
    (hh : 1944 ≤ height) : find_nearest_loop width height (fuel + 1) 1 = .ok 1 := by
  simp [find_nearest_loop, ov5640_mode_info_data, mode_full, hw, hh]

theorem find_nearest_loop_1080p (fuel width height : Nat) (hw : 1920 ≤ width)
    (hh : 1080 ≤ height) (hfull : ¬ (2592 ≤ width ∧ 1944 ≤ height)) :
    find_nearest_loop width height (fuel + 2) 1 = .ok 0 := by
  simp [find_nearest_loop, ov5640_mode_info_data, mode_full, mode_1080p, hw, hh, UINT_MOD]
  intro h1
  omega

theorem find_nearest_loop_none (fuel width height : Nat) (hno : width < 1920 ∨ height < 1080) :
    find_nearest_loop width height (fuel + 3) 1 = .error (.out_of_bounds 4294967295) := by
  have h1 : ¬ (2592 ≤ width ∧ 1944 ≤ height) := by omega
  have h2 : ¬ (1920 ≤ width ∧ 1080 ≤ height) := by omega
  simp [find_nearest_loop, ov5640_mode_info_data, mode_full, mode_1080p, UINT_MOD, h1, h2]

/-- C4 (as the code behaves): for every request that no catalog entry fits
(`width < 1920` or `height < 1080`), `ov5640_find_nearest_mode` does not return
the 1920x1080 entry: after entries 1 and 0 the unsigned counter wraps to
`4294967295` and the catalog is read outside its bounds. -/
theorem find_nearest_mode_no_fit_out_of_bounds (fuel width height : Nat)
    (hno : width < 1920 ∨ height < 1080) :
    ov5640_find_nearest_mode (fuel + 3) width height = .error (.out_of_bounds 4294967295) := by
  simp [ov5640_find_nearest_mode, ov5640_mode_info_data, find_nearest_loop_none fuel width height hno]

theorem find_nearest_mode_no_fit_out_of_bounds_witness :
    (100 < 1920 ∨ 100 < 1080) ∧
      ov5640_find_nearest_mode (0 + 3) 100 100 = .error (.out_of_bounds 4294967295) :=
  ⟨by decide, find_nearest_mode_no_fit_out_of_bounds 0 100 100 (by decide)⟩

theorem find_nearest_mode_of_ge (fuel width height : Nat) (hw : 1920 ≤ width)
    (hh : 1080 ≤ height) :
    ov5640_find_nearest_mode (fuel + 2) width height =
      .ok (if 2592 ≤ width ∧ 1944 ≤ height then mode_full else mode_1080p) := by
  by_cases hfull : 2592 ≤ width ∧ 1944 ≤ height
  · simp [ov5640_find_nearest_mode, ov5640_mode_info_data,
      find_nearest_loop_full (fuel + 1) width height hfull.1 hfull.2, hfull]
  · simp [ov5640_find_nearest_mode, ov5640_mode_info_data,
      find_nearest_loop_1080p fuel width height hw hh hfull, hfull]

/-- C5: for every request of at least 1920x1080, `ov5640_find_nearest_mode`
returns the 2592x1944 entry when that entry fits (`width >= 2592` and
`height >= 1944`) and the 1920x1080 entry otherwise; in particular
`(1920, 1080)` gives the 1920x1080 entry and `(3000, 3000)` the 2592x1944 entry. -/
theorem find_nearest_mode_at_least_1080p (fuel width height : Nat) (hw : 1920 ≤ width)
    (hh : 1080 ≤ height) :
    ov5640_find_nearest_mode (fuel + 2) width height =
        .ok (if 2592 ≤ width ∧ 1944 ≤ height then mode_full else mode_1080p) ∧
      ov5640_find_nearest_mode (fuel + 2) 1920 1080 = .ok mode_1080p ∧
      ov5640_find_nearest_mode (fuel + 2) 3000 3000 = .ok mode_full := by
  refine ⟨find_nearest_mode_of_ge fuel width height hw hh, ?_, ?_⟩
  · simpa using find_nearest_mode_of_ge fuel 1920 1080 (by decide) (by decide)
  · simpa using find_nearest_mode_of_ge fuel 3000 3000 (by decide) (by decide)

theorem find_nearest_mode_at_least_1080p_witness :
    ov5640_find_nearest_mode (0 + 2) 2000 1100 =
        .ok (if 2592 ≤ 2000 ∧ 1944 ≤ 1100 then mode_full else mode_1080p) ∧
      ov5640_find_nearest_mode (0 + 2) 1920 1080 = .ok mode_1080p ∧
      ov5640_find_nearest_mode (0 + 2) 3000 3000 = .ok mode_full :=
  find_nearest_mode_at_least_1080p 0 2000 1100 (by decide) (by decide)

/-- C6 (the claim as stated fails): at the request `(3000, 3000)` both catalog
entries fit, and `ov5640_find_nearest_mode` returns the 2592x1944 entry, which
is not the lowest-resolution entry that fits. -/
theorem find_nearest_mode_not_lowest_fit : ¬ ∃ fuel, returns_lowest_fit fuel 3000 3000 := by
  rintro ⟨fuel, m, hm, -, -, hlow⟩
  have h1080 := hlow mode_1080p (by simp [ov5640_mode_info_data]) (by decide)
  match fuel, hm with
  | 0, hm => simp [ov5640_find_nearest_mode, ov5640_mode_info_data, find_nearest_loop] at hm
  | f + 1, hm =>
    simp [ov5640_find_nearest_mode, ov5640_mode_info_data,
      find_nearest_loop_full f 3000 3000 (by decide) (by decide)] at hm
    subst hm
    simp [mode_full, mode_1080p] at h1080

/-- C6 (amended): for every request that at least one catalog entry fits,
`ov5640_find_nearest_mode` returns the highest-resolution catalog entry whose
width and height are both at most the requested values. -/
theorem find_nearest_mode_highest_fit (fuel width height : Nat)
    (hfit : ∃ m ∈ ov5640_mode_info_data, fits m width height) :
    returns_highest_fit (fuel + 2) width height := by
  have h1080 : 1920 ≤ width ∧ 1080 ≤ height := by
    obtain ⟨m, hm, hf⟩ := hfit
    simp [ov5640_mode_info_data] at hm
    rcases hm with rfl | rfl <;> simp [fits, mode_1080p, mode_full] at hf <;> omega
  have hres := find_nearest_mode_of_ge fuel width height h1080.1 h1080.2
  by_cases hfull : 2592 ≤ width ∧ 1944 ≤ height
  · refine ⟨mode_full, by simpa [hfull] using hres, by simp [ov5640_mode_info_data], ?_, ?_⟩
    · simpa [fits, mode_full] using hfull
    · intro n hn _
      simp [ov5640_mode_info_data] at hn
      rcases hn with rfl | rfl <;> simp [mode_1080p, mode_full]
  · refine ⟨mode_1080p, by simpa [hfull] using hres, by simp [ov5640_mode_info_data], ?_, ?_⟩
    · simpa [fits, mode_1080p] using h1080
    · intro n hn hf
      simp [ov5640_mode_info_data] at hn
      rcases hn with rfl | rfl
      · simp
      · exact absurd (by simpa [fits, mode_full] using hf) hfull

theorem find_nearest_mode_highest_fit_witness :
    (∃ m ∈ ov5640_mode_info_data, fits m 3000 3000) ∧ returns_highest_fit (0 + 2) 3000 3000 :=
  ⟨⟨mode_full, by simp [ov5640_mode_info_data], by decide⟩,
   find_nearest_mode_highest_fit 0 3000 3000 ⟨mode_full, by simp [ov5640_mode_info_data], by decide⟩⟩

/-! ## Format negotiation -/

/-- C7: when `ov5640_find_nearest_mode` returns the catalog entry `m` for the
requested size, an active `ov5640_set_format` succeeds, a following active
`ov5640_get_format` returns the width and height of `m`, the active crop
rectangle returned by `ov5640_get_selection` has the same width and height, and
`current_mode` is `m`. -/
theorem set_format_active_round_trip (fuel : Nat) (d : ov5640) (cfg : v4l2_subdev_pad_config)
    (f g : v4l2_subdev_format) (r : v4l2_rect) (m : ov5640_mode_info)
    (hf : f.which = V4L2_SUBDEV_FORMAT_ACTIVE) (hg : g.which = V4L2_SUBDEV_FORMAT_ACTIVE)
    (hm : ov5640_find_nearest_mode fuel f.format.width f.format.height = .ok m) :
    ∃ d1 cfg1 out, ov5640_set_format fuel d cfg f = .ok (0, d1, cfg1, out) ∧
      (ov5640_get_format d1 cfg1 g).1 = 0 ∧
      (ov5640_get_format d1 cfg1 g).2.format.width = m.width ∧
      (ov5640_get_format d1 cfg1 g).2.format.height = m.height ∧
      (∃ rect, ov5640_get_selection d1 cfg1 V4L2_SEL_TGT_CROP V4L2_SUBDEV_FORMAT_ACTIVE r =
          .ok (0, rect) ∧ rect.width = m.width ∧ rect.height = m.height) ∧
      d1.current_mode = some m := by
  simp [ov5640_set_format, ov5640_get_format, ov5640_get_selection, hm, hf, hg,
    __ov5640_get_pad_crop, __ov5640_get_pad_format, V4L2_SUBDEV_FORMAT_ACTIVE,
    V4L2_SUBDEV_FORMAT_TRY, FormatRef.read, CropRef.read]

theorem set_format_active_round_trip_witness :
    ∃ d1 cfg1 out,
      ov5640_set_format 2 (ov5640.attached 0x78 false false false)
          ⟨⟨0, 0, 0, 0, 0⟩, ⟨0, 0, 0, 0⟩⟩ ⟨1, ⟨2000, 1100, 0, 0, 0⟩⟩ = .ok (0, d1, cfg1, out) ∧
      (ov5640_get_format d1 cfg1 ⟨1, ⟨0, 0, 0, 0, 0⟩⟩).1 = 0 ∧
      (ov5640_get_format d1 cfg1 ⟨1, ⟨0, 0, 0, 0, 0⟩⟩).2.format.width = mode_1080p.width ∧
      (ov5640_get_format d1 cfg1 ⟨1, ⟨0, 0, 0, 0, 0⟩⟩).2.format.height = mode_1080p.height ∧
      (∃ rect, ov5640_get_selection d1 cfg1 V4L2_SEL_TGT_CROP V4L2_SUBDEV_FORMAT_ACTIVE
          ⟨0, 0, 0, 0⟩ = .ok (0, rect) ∧
        rect.width = mode_1080p.width ∧ rect.height = mode_1080p.height) ∧
      d1.current_mode = some mode_1080p :=
  set_format_active_round_trip 2 (ov5640.attached 0x78 false false false)
    ⟨⟨0, 0, 0, 0, 0⟩, ⟨0, 0, 0, 0⟩⟩ ⟨1, ⟨2000, 1100, 0, 0, 0⟩⟩ ⟨1, ⟨0, 0, 0, 0, 0⟩⟩ ⟨0, 0, 0, 0⟩
    mode_1080p rfl rfl rfl

/-! ## Controls -/

/-- C8: for every control identifier and value, `ov5640_s_ctrl` called while
`power_count` is 0 returns 0 and leaves the world (so no register write is
appended to the trace) and the device (so the three shadow bytes
`aec_pk_manual`, `timing_tc_reg20`, `timing_tc_reg21`) unchanged. -/
theorem s_ctrl_powered_off (env : Env) (d : ov5640) (w : World) (id : CtrlId) (val : Int)
    (hoff : d.power_count = 0) :
    ov5640_s_ctrl env d w id val = (0, w, d) ∧
      (ov5640_s_ctrl env d w id val).2.1.trace = w.trace ∧
      (ov5640_s_ctrl env d w id val).2.2.aec_pk_manual = d.aec_pk_manual ∧
      (ov5640_s_ctrl env d w id val).2.2.timing_tc_reg20 = d.timing_tc_reg20 ∧
      (ov5640_s_ctrl env d w id val).2.2.timing_tc_reg21 = d.timing_tc_reg21 := by
  simp [ov5640_s_ctrl, hoff]

theorem s_ctrl_powered_off_witness :
    (ov5640.attached 0x78 false false false).power_count = 0 ∧
      ov5640_s_ctrl env_i2c_ok (ov5640.attached 0x78 false false false) World.attached
        .vflip 1 = (0, World.attached, ov5640.attached 0x78 false false false) :=
  ⟨rfl, (s_ctrl_powered_off env_i2c_ok (ov5640.attached 0x78 false false false)
    World.attached .vflip 1 rfl).1⟩

theorem hw_effect_write_op (c : Bool) (a r v : Nat) (ret : Int) (w : World) :
    hw_effect (write_op c a r v) ret w = w := by
  cases c <;> rfl

theorem ShadowSetter.byte_lt (s : ShadowSetter) (d : ov5640) (val : Int) :
    s.byte d val < 256 := by
  cases s <;> simp only [ShadowSetter.byte, to_u8] <;> split <;> exact Nat.mod_lt _ (by decide)

/-- Shape of the result of every shadow-backed setter: one write of the computed
byte to the setter's register, the transport's code returned, the shadow
replaced by the byte exactly when the code is `0`. -/
theorem shadow_setter_shape (s : ShadowSetter) (env : Env) (d : ov5640) (w : World)
    (val : Int) :
    s.run env d w val =
      (env w.trace.length (write_op d.use_cci (to_u16 d.i2c_addr) s.register (s.byte d val)),
       { w with trace :=
          w.trace ++ [write_op d.use_cci (to_u16 d.i2c_addr) s.register (s.byte d val)] },
       if env w.trace.length
            (write_op d.use_cci (to_u16 d.i2c_addr) s.register (s.byte d val)) = 0
       then s.store d (s.byte d val) else d) := by
  have hb : to_u8 (s.byte d val) = s.byte d val := Nat.mod_eq_of_lt (s.byte_lt d val)
  cases s <;>
    simp only [ShadowSetter.run, ov5640_set_aec_mode, ov5640_set_agc_mode, ov5640_set_hflip,
      ov5640_set_vflip, ov5640_write_reg, hw_call, hw_effect_write_op, ShadowSetter.register,
      ShadowSetter.store] <;>
    simp only [ShadowSetter.byte] at hb <;>
    simp only [ShadowSetter.byte, hb] <;>
    rfl

/-- C10 (as the code behaves): under the generic register-bus backend
(`use_cci` clear) with `i2c_transfer` reporting success as `1`,
`ov5640_set_vflip(1)` on a device whose shadow `timing_tc_reg20` is `0x40` writes
the byte `0x46` to register `0x3820`, returns `1`, and leaves the shadow at
`0x40`: the setters update the shadow only when the returned code is `0`. -/
theorem set_vflip_i2c_success_keeps_stale_shadow :
    (ov5640_set_vflip env_i2c_ok
        { ov5640.attached 0x78 false false false with timing_tc_reg20 := 0x40, power_count := 1 }
        World.attached 1).1 = 1 ∧
      (ov5640_set_vflip env_i2c_ok
        { ov5640.attached 0x78 false false false with timing_tc_reg20 := 0x40, power_count := 1 }
        World.attached 1).2.1.trace = [.i2c_transfer 0x3c [0x38, 0x20, 0x46]] ∧
      (ov5640_set_vflip env_i2c_ok
        { ov5640.attached 0x78 false false false with timing_tc_reg20 := 0x40, power_count := 1 }
        World.attached 1).2.2.timing_tc_reg20 = 0x40 := by
  refine ⟨?_, ?_, ?_⟩ <;> rfl

/-! ## Power: collaborator calls and frames -/

theorem succeeded_write_op {c : Bool} {a r v : Nat} {ret : Int}
    (h : HwOp.succeeded (write_op c a r v) ret) : 0 ≤ ret := by
  cases c <;> exact h

theorem write_reg_eq (env : Env) (d : ov5640) (w : World) (reg val : Nat) :
    ov5640_write_reg env d w reg val =
      (env w.trace.length (reg_write_op d ⟨reg, val⟩),
       { w with trace := w.trace ++ [reg_write_op d ⟨reg, val⟩] }) := by
  simp [ov5640_write_reg, hw_call, hw_effect_write_op, reg_write_op]

theorem write_reg_to_eq (env : Env) (d : ov5640) (w : World) (reg val addr : Nat) :
    ov5640_write_reg_to env d w reg val addr =
      (env w.trace.length (write_op d.use_cci (to_u16 addr) (to_u16 reg) (to_u8 val)),
       { w with trace :=
          w.trace ++ [write_op d.use_cci (to_u16 addr) (to_u16 reg) (to_u8 val)] }) := by
  simp [ov5640_write_reg_to, hw_call, hw_effect_write_op]

/-- The register-array loop only appends to the trace. -/
theorem set_register_array_loop_frame (env : Env) (d : ov5640) (prog : List reg_value) :
    ∀ w : World, ∃ t, (set_register_array_loop env d w prog).2 =
      { w with trace := w.trace ++ t } := by
  induction prog with
  | nil => intro w; exact ⟨[], by simp [set_register_array_loop]⟩
  | cons s rest ih =>
    intro w
    simp only [set_register_array_loop, write_reg_eq]
    split
    · exact ⟨[reg_write_op d ⟨s.reg, s.val⟩], rfl⟩
    · obtain ⟨t, ht⟩ := ih { w with trace := w.trace ++ [reg_write_op d ⟨s.reg, s.val⟩] }
      exact ⟨reg_write_op d ⟨s.reg, s.val⟩ :: t, by rw [ht]; simp⟩

/-- When every write of the program succeeds, the loop returns `0` and appends
the writes in table order. -/
theorem set_register_array_loop_ok (env : Env) (d : ov5640) (prog : List reg_value) :
    ∀ (w : World) (n : Nat), w.trace.length = n →
      (∀ j, j < prog.length → ∀ s, prog[j]? = some s → 0 ≤ env (n + j) (reg_write_op d s)) →
      set_register_array_loop env d w prog =
        (0, { w with trace := w.trace ++ prog.map (reg_write_op d) }) := by
  induction prog with
  | nil => intro w n _ _; simp [set_register_array_loop]
  | cons s rest ih =>
    intro w n hn hok
    have h0 : 0 ≤ env n (reg_write_op d s) := by
      simpa using hok 0 (by simp) s (by simp)
    have hs : reg_write_op d ⟨s.reg, s.val⟩ = reg_write_op d s := rfl
    simp only [set_register_array_loop, write_reg_eq, hn, hs, not_lt.mpr h0, if_false]
    rw [ih _ (n + 1) (by simp [hn])]
    · simp
    · intro j hj t ht
      have := hok (j + 1) (by simpa using hj) t (by simpa using ht)
      simpa [Nat.add_assoc, Nat.add_comm 1 j] using this

/-- When the write of entry `k` fails and the earlier ones succeed, the loop
returns the failing code after appending the writes up to entry `k`. -/
theorem set_register_array_loop_fail (env : Env) (d : ov5640) (prog : List reg_value) :
    ∀ (w : World) (n k : Nat) (s : reg_value), w.trace.length = n → prog[k]? = some s →
      env (n + k) (reg_write_op d s) < 0 →
      (∀ j, j < k → ∀ t, prog[j]? = some t → 0 ≤ env (n + j) (reg_write_op d t)) →
      set_register_array_loop env d w prog =
        (env (n + k) (reg_write_op d s),
         { w with trace := w.trace ++ (prog.take (k + 1)).map (reg_write_op d) }) := by
  induction prog with
  | nil => intro w n k s _ hk; simp at hk
  | cons s0 rest ih =>
    intro w n k s hn hk hfail hok
    have hs : reg_write_op d ⟨s0.reg, s0.val⟩ = reg_write_op d s0 := rfl
    cases k with
    | zero =>
      simp at hk
      subst hk
      simp only [Nat.add_zero] at hfail
      simp [set_register_array_loop, write_reg_eq, hn, hs, hfail]
    | succ k =>
      have h0 : 0 ≤ env n (reg_write_op d s0) := by
        simpa using hok 0 (by simp) s0 (by simp)
      simp only [set_register_array_loop, write_reg_eq, hn, hs, not_lt.mpr h0, if_false]
      rw [ih _ (n + 1) k s (by simp [hn]) (by simpa using hk)
        (by simpa [Nat.add_assoc, Nat.add_comm 1 k] using hfail)]
      · simp [Nat.add_assoc, Nat.add_comm 1 k]
      · intro j hj t ht
        have := hok (j + 1) (by omega) t (by simpa using ht)
        simpa [Nat.add_assoc, Nat.add_comm 1 j] using this

theorem regulators_disable_ok (env : Env) (w : World) (n : Nat) (hn : w.trace.length = n)
    (h1 : 0 ≤ env n (.regulator_disable .core_regulator))
    (h2 : 0 ≤ env (n + 1) (.regulator_disable .analog_regulator))
    (h3 : 0 ≤ env (n + 2) (.regulator_disable .io_regulator)) :
    ov5640_regulators_disable env w =
      { w with io_on := false, analog_on := false, core_on := false,
               trace := w.trace ++ [.regulator_disable .core_regulator,
                 .regulator_disable .analog_regulator, .regulator_disable .io_regulator] } := by
  simp [ov5640_regulators_disable, hw_call, hw_effect, hn, not_lt.mpr h1, not_lt.mpr h2,
    not_lt.mpr h3]

theorem set_power_off_ok (env : Env) (w : World) (n : Nat) (hn : w.trace.length = n)
    (h1 : 0 ≤ env (n + 3) (.regulator_disable .core_regulator))
    (h2 : 0 ≤ env (n + 4) (.regulator_disable .analog_regulator))
    (h3 : 0 ≤ env (n + 5) (.regulator_disable .io_regulator)) :
    ov5640_set_power_off env w =
      { w with io_on := false, analog_on := false, core_on := false, xclk_on := false,
               enable_gpio := 0, rst_gpio := 1, trace := w.trace ++ power_off_ops } := by
  simp only [ov5640_set_power_off]
  rw [regulators_disable_ok env _ (n + 3) (by simp [hw_call, hn]) h1 h2 h3]
  simp [hw_call, hw_effect, power_off_ops]

/-- Whatever the collaborators report, `ov5640_set_power_off` leaves the enable
line at 0 and the reset line at 1, and does not touch the process-wide lock. -/
theorem set_power_off_lines (env : Env) (w : World) :
    (ov5640_set_power_off env w).enable_gpio = 0 ∧
      (ov5640_set_power_off env w).rst_gpio = 1 ∧
      (ov5640_set_power_off env w).ov5640_lock = w.ov5640_lock := by
  simp only [ov5640_set_power_off, ov5640_regulators_disable, hw_call, hw_effect]
  refine ⟨?_, ?_, ?_⟩ <;> (repeat' split) <;> rfl

theorem set_power_on_ok (env : Env) (w : World) (n : Nat) (hn : w.trace.length = n)
    (h1 : env n (.regulator_enable .io_regulator) = 0)
    (h2 : env (n + 1) (.regulator_enable .analog_regulator) = 0)
    (h3 : env (n + 2) (.regulator_enable .core_regulator) = 0)
    (h4 : env (n + 3) .clk_prepare_enable = 0) :
    ov5640_set_power_on env w =
      (0, { w with io_on := true, analog_on := true, core_on := true, xclk_on := true,
                   enable_gpio := 1, rst_gpio := 0, trace := w.trace ++ power_on_ops }) := by
  simp [ov5640_set_power_on, ov5640_regulators_enable, hw_call, hw_effect, hn, h1, h2, h3, h4,
    power_on_ops]

/-- Under conforming collaborators: a failed `ov5640_set_power_on` leaves the two
control lines as they were, a successful one leaves the sensor powered on; the
process-wide lock is not touched. -/
theorem set_power_on_spec (env : Env) (henv : conforming env) (w : World) :
    ((ov5640_set_power_on env w).1 < 0 →
        (ov5640_set_power_on env w).2.enable_gpio = w.enable_gpio ∧
        (ov5640_set_power_on env w).2.rst_gpio = w.rst_gpio) ∧
      (0 ≤ (ov5640_set_power_on env w).1 → (ov5640_set_power_on env w).2.powered_on) ∧
      (ov5640_set_power_on env w).2.ov5640_lock = w.ov5640_lock := by
  have e1 := (henv w.trace.length).1 .io_regulator
  have e2 := (henv (w.trace.length + 1)).1 .analog_regulator
  have e3 := (henv (w.trace.length + 2)).1 .core_regulator
  have e4 := (henv (w.trace.length + 3)).2
  by_cases h1 : env w.trace.length (.regulator_enable .io_regulator) < 0
  · simp [ov5640_set_power_on, ov5640_regulators_enable, hw_call, hw_effect, h1, ne_of_lt h1,
      not_le.mpr h1]
  · have h1z : env w.trace.length (.regulator_enable .io_regulator) = 0 := by omega
    by_cases h2 : env (w.trace.length + 1) (.regulator_enable .analog_regulator) = 0
    · by_cases h3 : env (w.trace.length + 2) (.regulator_enable .core_regulator) = 0
      · by_cases h4 : env (w.trace.length + 3) .clk_prepare_enable = 0
        · simp [set_power_on_ok env w _ rfl h1z h2 h3 h4, World.powered_on]
        · have h4n : env (w.trace.length + 3) .clk_prepare_enable < 0 := by omega
          simp only [ov5640_set_power_on, ov5640_regulators_enable, ov5640_regulators_disable,
            hw_call, hw_effect]
          simp [h1z, h2, h3, h4, h4n, not_le.mpr h4n]
          refine ⟨⟨?_, ?_⟩, ?_⟩ <;> (repeat' split) <;> rfl
      · have h3n : env (w.trace.length + 2) (.regulator_enable .core_regulator) < 0 := by omega
        simp only [ov5640_set_power_on, ov5640_regulators_enable, hw_call, hw_effect]
        simp [h1z, h2, h3, h3n, not_le.mpr h3n]
        refine ⟨⟨?_, ?_⟩, ?_⟩ <;> (repeat' split) <;> rfl
    · have h2n : env (w.trace.length + 1) (.regulator_enable .analog_regulator) < 0 := by omega
      simp only [ov5640_set_power_on, ov5640_regulators_enable, hw_call, hw_effect]
      simp [h1z, h2, h2n, not_le.mpr h2n]
      refine ⟨⟨?_, ?_⟩, ?_⟩ <;> (repeat' split) <;> rfl

/-! ## Power: one call of `ov5640_s_power` -/

theorem s_power_exit_eq (env : Env) (w : World) (d : ov5640) (on_ : Bool) (ret : Int) :
    s_power_exit env w d on_ ret =
      (ret, { w with trace := w.trace ++
                (if !on_ && d.use_cci then [.msm_cci_ctrl_release] else []) }, d) := by
  simp only [s_power_exit, hw_call, hw_effect]
  split <;> simp

theorem wrap_s32_of_bounds (x : Int) (h1 : -2 ^ 31 ≤ x) (h2 : x < 2 ^ 31) : wrap_s32 x = x := by
  unfold wrap_s32
  omega

/-- The two outcomes of the part of the power-up branch after the unlock: a
negative code with the control lines back at enable 0 and reset 1 and the
device unchanged, or a non-negative code with only register writes appended
and the count incremented. -/
theorem s_power_init_cases (env : Env) (w : World) (d : ov5640) :
    (∃ ret w1, s_power_init env w d = (ret, w1, d) ∧ ret < 0 ∧ w1.enable_gpio = 0 ∧
        w1.rst_gpio = 1 ∧ w1.ov5640_lock = w.ov5640_lock) ∨
      (∃ ret t, s_power_init env w d =
          (ret, { w with trace := w.trace ++ t },
           { d with power_count := wrap_s32 (d.power_count + 1) }) ∧ 0 ≤ ret) := by
  obtain ⟨t, ht⟩ := set_register_array_loop_frame env d ov5640_global_init_setting w
  have hl := set_power_off_lines env
  simp only [s_power_init, ov5640_set_register_array, List.take_length]
  by_cases hi : (set_register_array_loop env d w ov5640_global_init_setting).1 < 0
  · simp only [hi, if_true, s_power_exit_eq]
    exact Or.inl ⟨_, _, rfl, hi, by simp [hl, ht]⟩
  · simp only [hi, if_false, write_reg_eq, ht]
    by_cases hs : env (w.trace ++ t).length
        (reg_write_op d ⟨OV5640_SYSTEM_CTRL0, OV5640_SYSTEM_CTRL0_STOP⟩) < 0
    · simp only [hs, if_true, s_power_exit_eq]
      exact Or.inl ⟨_, _, rfl, hs, by simp [hl]⟩
    · simp only [hs, if_false, s_power_update, s_power_exit_eq]
      exact Or.inr ⟨_, t ++ [reg_write_op d ⟨OV5640_SYSTEM_CTRL0, OV5640_SYSTEM_CTRL0_STOP⟩],
        by simp, not_lt.mp hs⟩

theorem s_power_up_of_init (env : Env) (w : World) (d : ov5640) (hon : w.powered_on)
    (hlock : w.ov5640_lock = false) :
    (∃ ret w1, some (s_power_init env w d) = some (ret, w1, d) ∧ ret < 0 ∧ w1.enable_gpio = 0 ∧
        w1.rst_gpio = 1) ∨
      (∃ ret w1, some (s_power_init env w d) =
          some (ret, w1, { d with power_count := wrap_s32 (d.power_count + 1) }) ∧ 0 ≤ ret ∧
        w1.powered_on ∧ w1.ov5640_lock = false) := by
  rcases s_power_init_cases env w d with ⟨r, w1, h1, h2, h3, h4, -⟩ | ⟨r, t, h1, h2⟩
  · rw [h1]
    exact Or.inl ⟨_, _, rfl, h2, h3, h4⟩
  · rw [h1]
    exact Or.inr ⟨_, _, rfl, h2, by simpa [World.powered_on] using hon, by simpa using hlock⟩

/-- The outcomes of the power-up branch entered with the process-wide lock free
and the control lines at enable 0 and reset 1, under conforming collaborators:
a negative code with the lines at enable 0 and reset 1 and the device
unchanged, or a non-negative code with the sensor powered on, the lock free
and the count incremented. -/
theorem s_power_up_cases (env : Env) (henv : conforming env) (w : World) (d : ov5640)
    (hlock : w.ov5640_lock = false) (hen : w.enable_gpio = 0) (hrst : w.rst_gpio = 1) :
    (∃ ret w1, s_power_up env w d = some (ret, w1, d) ∧ ret < 0 ∧ w1.enable_gpio = 0 ∧
        w1.rst_gpio = 1) ∨
      (∃ ret w1, s_power_up env w d =
          some (ret, w1, { d with power_count := wrap_s32 (d.power_count + 1) }) ∧ 0 ≤ ret ∧
        w1.powered_on ∧ w1.ov5640_lock = false) := by
  obtain ⟨hneg, hpos, -⟩ := set_power_on_spec env henv { w with ov5640_lock := true }
  have hl := set_power_off_lines env
  simp only [s_power_up, hlock, Bool.false_eq_true, if_false]
  generalize ov5640_set_power_on env { w with ov5640_lock := true } = P at hneg hpos ⊢
  by_cases hp : P.1 < 0
  · rw [if_pos hp]
    simp only [s_power_exit_eq]
    exact Or.inl ⟨_, _, rfl, hp, by simpa [hen, hrst] using hneg hp⟩
  · have hon := hpos (not_lt.mp hp)
    rw [if_neg hp]
    by_cases haddr : d.i2c_addr ≠ 0x78
    · rw [if_pos haddr]
      simp only [write_reg_to_eq]
      split
      · rename_i ha
        simp only [s_power_exit_eq]
        exact Or.inl ⟨_, _, rfl, ha, by simp [hl]⟩
      · exact s_power_up_of_init env _ d (by simpa [World.powered_on] using hon) rfl
    · rw [if_neg haddr]
      exact s_power_up_of_init env _ d (by simpa [World.powered_on] using hon) rfl

theorem s_power_entry (env : Env) (w : World) (d : ov5640) (on_ : Bool) :
    ∃ ret0 t, (if on_ && d.use_cci then hw_call env w .msm_cci_ctrl_init else (0, w)) =
      (ret0, { w with trace := w.trace ++ t }) ∧ (on_ = false → ret0 = 0) := by
  by_cases h : (on_ && d.use_cci) = true
  · refine ⟨env w.trace.length .msm_cci_ctrl_init, [.msm_cci_ctrl_init],
      by simp [h, hw_call, hw_effect], ?_⟩
    intro hf
    simp [hf] at h
  · exact ⟨0, [], by simp [h], fun _ => rfl⟩

/-- One returning call of `ov5640_s_power` under conforming collaborators, away
from the limits of the C `int`: the invariant is kept, an acquire leaves the
count or increments it, and a release decrements it. -/
theorem s_power_step (env : Env) (henv : conforming env) (w : World) (d : ov5640) (on_ : Bool)
    (r : Int × World × ov5640) (hinv : power_inv w d) (hlo : -2 ^ 31 < d.power_count)
    (hhi : d.power_count < 2 ^ 31 - 1) (h : ov5640_s_power env w d on_ = some r) :
    power_inv r.2.1 r.2.2 ∧
      (on_ = true →
        r.2.2.power_count = d.power_count ∨ r.2.2.power_count = d.power_count + 1) ∧
      (on_ = false → r.2.2.power_count = d.power_count - 1) := by
  obtain ⟨ret0, t, hent, hret0⟩ := s_power_entry env w d on_
  simp only [ov5640_s_power, hent] at h
  have hl := set_power_off_lines env { w with trace := w.trace ++ t }
  cases on_ with
  | false =>
    have h0 : ret0 = 0 := hret0 rfl
    subst h0
    simp only [lt_irrefl, if_false, Bool.false_eq_true, s_power_update, s_power_exit_eq] at h
    by_cases hc : d.power_count = 1
    · simp only [hc, if_true, Option.some.injEq] at h
      subst h
      refine ⟨⟨fun h1 => ?_, fun _ => ?_⟩, by simp, fun _ => ?_⟩
      · simp [wrap_s32] at h1
      · simp [hl]
      · simp [hc, wrap_s32]
    · simp only [hc, if_false, Option.some.injEq] at h
      subst h
      have hw : wrap_s32 (d.power_count + -1) = d.power_count - 1 :=
        wrap_s32_of_bounds _ (by omega) (by omega)
      refine ⟨⟨fun h1 => ?_, fun h1 => ?_⟩, by simp, fun _ => ?_⟩
      · simp only [hw] at h1
        exact hinv.1 (by omega)
      · simp only [hw] at h1
        exact hinv.2 (by omega)
      · simpa using hw
  | true =>
    simp only [if_true, Bool.true_and] at h
    by_cases hneg : ret0 < 0
    · simp only [hneg, if_true, s_power_exit_eq, Option.some.injEq] at h
      subst h
      exact ⟨hinv, fun _ => Or.inl rfl, by simp⟩
    · simp only [hneg, if_false] at h
      by_cases hc : d.power_count = 0
      · simp only [hc, if_true] at h
        by_cases hlk : w.ov5640_lock = true
        · simp [s_power_up, hlk] at h
        · have hlk2 : ({ w with trace := w.trace ++ t } : World).ov5640_lock = false := by
            simpa using hlk
          have hlines := hinv.2 (le_of_eq hc)
          rcases s_power_up_cases env henv { w with trace := w.trace ++ t } d hlk2 hlines.1
            hlines.2 with ⟨ret, w1, h1, -, h3, h4⟩ | ⟨ret, w1, h1, -, h3, -⟩
          · rw [h1, Option.some.injEq] at h
            subst h
            exact ⟨⟨fun hp => absurd hp (by simp [hc]), fun _ => ⟨h3, h4⟩⟩,
              fun _ => Or.inl rfl, by simp⟩
          · rw [h1, Option.some.injEq] at h
            subst h
            have hw : wrap_s32 (d.power_count + 1) = d.power_count + 1 :=
              wrap_s32_of_bounds _ (by omega) (by omega)
            refine ⟨⟨fun _ => h3, fun hp => ?_⟩, fun _ => Or.inr hw, by simp⟩
            simp only [hw] at hp
            omega
      · simp only [hc, if_false, s_power_update, s_power_exit_eq, Option.some.injEq] at h
        subst h
        have hw : wrap_s32 (d.power_count + 1) = d.power_count + 1 :=
          wrap_s32_of_bounds _ (by omega) (by omega)
        refine ⟨⟨fun h1 => ?_, fun h1 => ?_⟩, fun _ => Or.inr (by simpa using hw), by simp⟩
        · simp only [if_true, hw] at h1
          exact hinv.1 (by omega)
        · simp only [if_true, hw] at h1
          exact hinv.2 (by omega)

/-! ## Power: calls in which every collaborator succeeds -/

theorem s_power_init_ok (env : Env) (hok : all_succeed env) (w : World) (d : ov5640) :
    ∃ ret, 0 ≤ ret ∧ s_power_init env w d =
      (ret,
       { w with trace := w.trace ++ (ov5640_global_init_setting.map (reg_write_op d) ++
          [reg_write_op d ⟨OV5640_SYSTEM_CTRL0, OV5640_SYSTEM_CTRL0_STOP⟩]) },
       { d with power_count := wrap_s32 (d.power_count + 1) }) := by
  have harr := set_register_array_loop_ok env d ov5640_global_init_setting w _ rfl
    (fun j _ s _ => succeeded_write_op (hok _ (reg_write_op d s)))
  have hstop : ∀ n, 0 ≤ env n (reg_write_op d ⟨OV5640_SYSTEM_CTRL0, OV5640_SYSTEM_CTRL0_STOP⟩) :=
    fun n => succeeded_write_op (hok n _)
  refine ⟨env (w.trace ++ ov5640_global_init_setting.map (reg_write_op d)).length
    (reg_write_op d ⟨OV5640_SYSTEM_CTRL0, OV5640_SYSTEM_CTRL0_STOP⟩), hstop _, ?_⟩
  simp only [s_power_init, ov5640_set_register_array, List.take_length, harr, lt_irrefl,
    if_false, write_reg_eq, not_lt.mpr (hstop _), s_power_update, s_power_exit_eq]
  simp

theorem s_power_up_ok (env : Env) (hok : all_succeed env) (w : World) (d : ov5640)
    (hlock : w.ov5640_lock = false) :
    ∃ ret, 0 ≤ ret ∧ s_power_up env w d =
      some (ret,
        { w with io_on := true, analog_on := true, core_on := true, xclk_on := true,
                 enable_gpio := 1, rst_gpio := 0,
                 trace := w.trace ++ (power_on_ops ++ power_up_writes d) },
        { d with power_count := wrap_s32 (d.power_count + 1) }) := by
  have hon := set_power_on_ok env { w with ov5640_lock := true } _ rfl
    (hok _ (.regulator_enable .io_regulator)) (hok _ (.regulator_enable .analog_regulator))
    (hok _ (.regulator_enable .core_regulator)) (hok _ .clk_prepare_enable)
  simp only [s_power_up, hlock, Bool.false_eq_true, if_false, hon, lt_irrefl]
  by_cases haddr : d.i2c_addr ≠ 0x78
  · have ha : ∀ n, 0 ≤ env n (write_op d.use_cci (to_u16 0x78) (to_u16 0x3100)
        (to_u8 d.i2c_addr)) := fun n => succeeded_write_op (hok n _)
    rw [if_pos haddr]
    simp only [write_reg_to_eq, not_lt.mpr (ha _), if_false]
    obtain ⟨ret, hret, hinit⟩ := s_power_init_ok env hok
      { w with io_on := true, analog_on := true, core_on := true, xclk_on := true,
               enable_gpio := 1, rst_gpio := 0, ov5640_lock := false,
               trace := (w.trace ++ power_on_ops) ++
                [write_op d.use_cci (to_u16 0x78) (to_u16 0x3100) (to_u8 d.i2c_addr)] } d
    refine ⟨ret, hret, ?_⟩
    rw [hinit]
    simp [power_up_writes, haddr, hlock]
  · rw [if_neg haddr]
    obtain ⟨ret, hret, hinit⟩ := s_power_init_ok env hok
      { w with io_on := true, analog_on := true, core_on := true, xclk_on := true,
               enable_gpio := 1, rst_gpio := 0, ov5640_lock := false,
               trace := w.trace ++ power_on_ops } d
    refine ⟨ret, hret, ?_⟩
    rw [hinit]
    simp [power_up_writes, haddr, hlock]

/-- The 0 to 1 edge when every collaborator call succeeds. -/
theorem s_power_edge_up_ok (env : Env) (hok : all_succeed env) (w : World) (d : ov5640)
    (hlock : w.ov5640_lock = false) (hc : d.power_count = 0) :
    ∃ ret, 0 ≤ ret ∧ ov5640_s_power env w d true =
      some (ret,
        { w with io_on := true, analog_on := true, core_on := true, xclk_on := true,
                 enable_gpio := 1, rst_gpio := 0, trace := w.trace ++ power_up_script d },
        { d with power_count := 1 }) := by
  have hw : wrap_s32 (0 + 1) = 1 := by simp [wrap_s32]
  have hw1 : wrap_s32 (d.power_count + 1) = 1 := by simp [hc, wrap_s32]
  cases hcci : d.use_cci with
  | false =>
    obtain ⟨ret, hret, hup⟩ := s_power_up_ok env hok w d hlock
    refine ⟨ret, hret, ?_⟩
    simp only [ov5640_s_power, hcci, Bool.and_false, Bool.false_eq_true, if_false, lt_irrefl,
      if_true, hc, hup, hw, hw1]
    simp [power_up_script, hcci]
  | true =>
    have hi : 0 ≤ env w.trace.length .msm_cci_ctrl_init := hok _ .msm_cci_ctrl_init
    obtain ⟨ret, hret, hup⟩ := s_power_up_ok env hok
      { w with trace := w.trace ++ [.msm_cci_ctrl_init] } d hlock
    refine ⟨ret, hret, ?_⟩
    simp only [ov5640_s_power, hcci, Bool.and_true, if_true, hw_call, hw_effect,
      not_lt.mpr hi, if_false, hc, hup, hw, hw1]
    simp [power_up_script, hcci]

/-- The 1 to 0 edge when every collaborator call succeeds. -/
theorem s_power_edge_down_ok (env : Env) (hok : all_succeed env) (w : World) (d : ov5640)
    (hc : d.power_count = 1) :
    ov5640_s_power env w d false =
      some (0,
        { w with io_on := false, analog_on := false, core_on := false, xclk_on := false,
                 enable_gpio := 0, rst_gpio := 1, trace := w.trace ++ power_down_script d },
        { d with power_count := 0 }) := by
  have hoff := set_power_off_ok env w _ rfl
    (le_of_eq (Eq.symm (hok _ (.regulator_disable .core_regulator))))
    (le_of_eq (Eq.symm (hok _ (.regulator_disable .analog_regulator))))
    (le_of_eq (Eq.symm (hok _ (.regulator_disable .io_regulator))))
  have hw : wrap_s32 (1 + -1) = 0 := by simp [wrap_s32]
  simp only [ov5640_s_power, Bool.false_and, Bool.false_eq_true, if_false, lt_irrefl, hc,
    if_true, hoff, s_power_update, s_power_exit_eq, hw]
  cases hcci : d.use_cci <;> simp [power_down_script, hcci]

/-- A call off the edges when every collaborator call succeeds. -/
theorem s_power_idle_ok (env : Env) (hok : all_succeed env) (w : World) (d : ov5640)
    (on_ : Bool) (hup : ¬ (on_ = true ∧ d.power_count = 0))
    (hdown : ¬ (on_ = false ∧ d.power_count = 1)) :
    ∃ ret, 0 ≤ ret ∧ ov5640_s_power env w d on_ =
      some (ret, { w with trace := w.trace ++ idle_script d on_ },
        { d with power_count := wrap_s32 (d.power_count + (if on_ then 1 else -1)) }) := by
  have hi : 0 ≤ env w.trace.length .msm_cci_ctrl_init := hok _ .msm_cci_ctrl_init
  cases on_ with
  | false =>
    have hc : d.power_count ≠ 1 := fun h => hdown ⟨rfl, h⟩
    refine ⟨0, le_refl _, ?_⟩
    simp only [ov5640_s_power, Bool.false_and, Bool.false_eq_true, if_false, lt_irrefl, hc,
      s_power_update, s_power_exit_eq]
    cases hcci : d.use_cci <;> simp [idle_script, hcci]
  | true =>
    have hc : d.power_count ≠ 0 := fun h => hup ⟨rfl, h⟩
    cases hcci : d.use_cci with
    | false =>
      refine ⟨0, le_refl _, ?_⟩
      simp only [ov5640_s_power, hcci, Bool.and_false, Bool.false_eq_true, if_false, lt_irrefl,
        if_true, hc, s_power_update, s_power_exit_eq]
      simp [idle_script, hcci]
    | true =>
      refine ⟨_, hi, ?_⟩
      simp only [ov5640_s_power, hcci, Bool.and_true, if_true, hw_call, hw_effect,
        not_lt.mpr hi, if_false, hc, s_power_update, s_power_exit_eq]
      simp [idle_script, hcci]

/-! ## Power: sequences of calls -/

theorem power_inv_iff (w : World) (d : ov5640) (h : power_inv w d) :
    w.powered_on ↔ 0 < d.power_count := by
  constructor
  · intro hon
    by_contra hc
    have hl := (h.2 (not_lt.mp hc)).1
    have he : w.enable_gpio = 1 := hon.2.2.2.2.1
    omega
  · exact h.1

/-- Along a run of returning calls, under conforming collaborators and away from
the limits of the C `int`, the invariant is kept; and the count stays
non-negative when no release is issued at a count of 0 or less. -/
theorem power_run_inv (env : Env) (henv : conforming env) :
    ∀ (calls : List Bool) (w : World) (d : ov5640) (w1 : World) (d1 : ov5640),
      power_inv w d → -2 ^ 31 + (calls.length : Int) ≤ d.power_count →
      d.power_count + (calls.length : Int) ≤ 2 ^ 31 - 1 →
      power_run env w d calls = some (w1, d1) →
      power_inv w1 d1 ∧ (0 ≤ d.power_count → releases_held env w d calls → 0 ≤ d1.power_count) := by
  intro calls
  induction calls with
  | nil =>
    intro w d w1 d1 hinv _ _ hrun
    simp only [power_run, Option.some.injEq, Prod.mk.injEq] at hrun
    obtain ⟨rfl, rfl⟩ := hrun
    exact ⟨hinv, fun h _ => h⟩
  | cons on_ rest ih =>
    intro w d w1 d1 hinv hlo hhi hrun
    simp only [List.length_cons, Nat.cast_add, Nat.cast_one] at hlo hhi
    have hrest : (0 : Int) ≤ rest.length := Int.natCast_nonneg _
    cases hs : ov5640_s_power env w d on_ with
    | none => simp [power_run, hs] at hrun
    | some r =>
      simp only [power_run, hs] at hrun
      obtain ⟨hinv1, hacq, hrel⟩ :=
        s_power_step env henv w d on_ r hinv (by omega) (by omega) hs
      have hcount : d.power_count - 1 ≤ r.2.2.power_count ∧
          r.2.2.power_count ≤ d.power_count + 1 := by
        cases on_ with
        | false => have := hrel rfl; omega
        | true => rcases hacq rfl with h | h <;> omega
      obtain ⟨hfin, hnonneg⟩ := ih r.2.1 r.2.2 w1 d1 hinv1 (by omega) (by omega) hrun
      refine ⟨hfin, fun h0 hheld => ?_⟩
      simp only [releases_held, hs] at hheld
      apply hnonneg _ hheld.2
      cases on_ with
      | false => have := hrel rfl; have := hheld.1 rfl; omega
      | true => rcases hacq rfl with h | h <;> omega

theorem power_inv_attached (i2c_addr : Nat) (use_cci hflip vflip : Bool) :
    power_inv World.attached (ov5640.attached i2c_addr use_cci hflip vflip) :=
  ⟨fun h => absurd h (by simp [ov5640.attached]), fun _ => ⟨rfl, rfl⟩⟩

theorem conforming_env_i2c_ok : conforming env_i2c_ok := by
  intro n
  exact ⟨fun r => le_refl _, le_refl _⟩

theorem all_succeed_env_i2c_ok : all_succeed env_i2c_ok := by
  intro n op
  cases op <;> simp [HwOp.succeeded, env_i2c_ok]

/-! ## Power: the hardware at a count of 0 or less -/

theorem off_under_trace (env : Env) (w : World) (t : List HwOp) :
    World.off_under env { w with trace := t } ↔ w.off_under env := Iff.rfl

/-- Whatever the collaborators report, `ov5640_set_power_off` leaves the clock
disabled, and the three supplies disabled when no regulator disable fails. -/
theorem set_power_off_off_under (env : Env) (w : World) :
    (ov5640_set_power_off env w).off_under env := by
  constructor
  · simp only [ov5640_set_power_off, ov5640_regulators_disable, hw_call, hw_effect]
    (repeat' split) <;> rfl
  · intro hdis
    rw [set_power_off_ok env w _ rfl (hdis _ _) (hdis _ _) (hdis _ _)]
    exact ⟨rfl, rfl, rfl⟩

/-- Under conforming collaborators, a failed `ov5640_set_power_on` entered with
the clock and the supplies disabled leaves them disabled. -/
theorem set_power_on_fail_off_under (env : Env) (henv : conforming env) (w : World)
    (hoff : w.off_under env) (hfail : (ov5640_set_power_on env w).1 < 0) :
    (ov5640_set_power_on env w).2.off_under env := by
  obtain ⟨hclk, hregs⟩ := hoff
  have e1 := (henv w.trace.length).1 .io_regulator
  have e2 := (henv (w.trace.length + 1)).1 .analog_regulator
  have e3 := (henv (w.trace.length + 2)).1 .core_regulator
  have e4 := (henv (w.trace.length + 3)).2
  by_cases h1 : env w.trace.length (.regulator_enable .io_regulator) < 0
  · simp only [ov5640_set_power_on, ov5640_regulators_enable, hw_call, hw_effect, h1,
      ne_of_lt h1, if_true, if_false]
    exact ⟨hclk, hregs⟩
  · have h1z : env w.trace.length (.regulator_enable .io_regulator) = 0 := by omega
    by_cases h2 : env (w.trace.length + 1) (.regulator_enable .analog_regulator) = 0
    · by_cases h3 : env (w.trace.length + 2) (.regulator_enable .core_regulator) = 0
      · by_cases h4 : env (w.trace.length + 3) .clk_prepare_enable = 0
        · rw [set_power_on_ok env w _ rfl h1z h2 h3 h4] at hfail
          exact absurd hfail (lt_irrefl _)
        · have h4n : env (w.trace.length + 3) .clk_prepare_enable < 0 := by omega
          constructor
          · simp only [ov5640_set_power_on, ov5640_regulators_enable,
              ov5640_regulators_disable, hw_call, hw_effect]
            simp [h1z, h2, h3, h4, h4n]
            (repeat' split) <;> exact hclk
          · intro hdis
            have hd : ∀ n r, ¬ env n (.regulator_disable r) < 0 :=
              fun n r => not_lt.mpr (hdis n r)
            simp only [ov5640_set_power_on, ov5640_regulators_enable,
              ov5640_regulators_disable, hw_call, hw_effect]
            simp [h1z, h2, h3, h4, h4n, hd]
      · have h3n : env (w.trace.length + 2) (.regulator_enable .core_regulator) < 0 := by omega
        constructor
        · simp only [ov5640_set_power_on, ov5640_regulators_enable, hw_call, hw_effect]
          simp [h1z, h2, h3, h3n]
          (repeat' split) <;> exact hclk
        · intro hdis
          have hd : ∀ n r, ¬ env n (.regulator_disable r) < 0 :=
            fun n r => not_lt.mpr (hdis n r)
          simp only [ov5640_set_power_on, ov5640_regulators_enable, hw_call, hw_effect]
          simp [h1z, h2, h3, h3n, hd, (hregs hdis).2.2]
    · have h2n : env (w.trace.length + 1) (.regulator_enable .analog_regulator) < 0 := by omega
      constructor
      · simp only [ov5640_set_power_on, ov5640_regulators_enable, hw_call, hw_effect]
        simp [h1z, h2, h2n]
        (repeat' split) <;> exact hclk
      · intro hdis
        have hd : ∀ n r, ¬ env n (.regulator_disable r) < 0 :=
          fun n r => not_lt.mpr (hdis n r)
        simp only [ov5640_set_power_on, ov5640_regulators_enable, hw_call, hw_effect]
        simp [h1z, h2, h2n, hd, (hregs hdis).2.1, (hregs hdis).2.2]

/-- A failing tail of the power-up branch (initialization program or stop
write) leaves the clock disabled, and the supplies disabled when no regulator
disable fails. -/
theorem s_power_init_fail_off_under (env : Env) (w : World) (d : ov5640)
    (hfail : (s_power_init env w d).1 < 0) : (s_power_init env w d).2.1.off_under env := by
  have hoff := set_power_off_off_under env
  simp only [s_power_init] at hfail ⊢
  split at hfail
  · rename_i hi
    rw [if_pos hi]
    simp only [s_power_exit_eq]
    exact (off_under_trace env _ _).mpr (hoff _)
  · rename_i hi
    rw [if_neg hi]
    split at hfail
    · rename_i hs
      rw [if_pos hs]
      simp only [s_power_exit_eq]
      exact (off_under_trace env _ _).mpr (hoff _)
    · rename_i hs
      simp only [s_power_update, s_power_exit_eq] at hfail
      exact absurd hfail hs

/-- A failing power-up branch entered with the clock and the supplies disabled
leaves them disabled (the supplies when no regulator disable fails). -/
theorem s_power_up_fail_off_under (env : Env) (henv : conforming env) (w : World) (d : ov5640)
    (r : Int × World × ov5640) (hoff : w.off_under env) (h : s_power_up env w d = some r)
    (hfail : r.1 < 0) : r.2.1.off_under env := by
  have hon := set_power_on_fail_off_under env henv { w with ov5640_lock := true } hoff
  simp only [s_power_up] at h
  split at h
  · exact absurd h (by simp)
  · split at h
    · rename_i hp
      simp only [s_power_exit_eq, Option.some.injEq] at h
      subst h
      exact hon hp
    · split at h
      · split at h
        · simp only [s_power_exit_eq, Option.some.injEq] at h
          subst h
          exact ⟨(set_power_off_off_under env _).1, (set_power_off_off_under env _).2⟩
        · simp only [Option.some.injEq] at h
          subst h
          exact s_power_init_fail_off_under env _ d hfail
      · simp only [Option.some.injEq] at h
        subst h
        exact s_power_init_fail_off_under env _ d hfail

/-- One returning call of `ov5640_s_power` under conforming collaborators, away
from the limits of the C `int`: when the clock and the supplies are disabled
at every count of 0 or less before the call, they are so after it. -/
theorem s_power_step_off_under (env : Env) (henv : conforming env) (w : World) (d : ov5640)
    (on_ : Bool) (r : Int × World × ov5640) (hinv : power_inv w d)
    (hoff : d.power_count ≤ 0 → w.off_under env) (hlo : -2 ^ 31 < d.power_count)
    (hhi : d.power_count < 2 ^ 31 - 1) (h : ov5640_s_power env w d on_ = some r) :
    r.2.2.power_count ≤ 0 → r.2.1.off_under env := by
  obtain ⟨ret0, t, hent, hret0⟩ := s_power_entry env w d on_
  simp only [ov5640_s_power, hent] at h
  cases on_ with
  | false =>
    have h0 : ret0 = 0 := hret0 rfl
    subst h0
    simp only [lt_irrefl, if_false, Bool.false_eq_true, s_power_update, s_power_exit_eq] at h
    by_cases hc : d.power_count = 1
    · simp only [hc, if_true, Option.some.injEq] at h
      subst h
      intro _
      exact ⟨(set_power_off_off_under env _).1, (set_power_off_off_under env _).2⟩
    · simp only [hc, if_false, Option.some.injEq] at h
      subst h
      have hw : wrap_s32 (d.power_count + -1) = d.power_count - 1 :=
        wrap_s32_of_bounds _ (by omega) (by omega)
      intro h1
      simp only [hw] at h1
      exact hoff (by omega)
  | true =>
    simp only [if_true, Bool.true_and] at h
    by_cases hneg : ret0 < 0
    · simp only [hneg, if_true, s_power_exit_eq, Option.some.injEq] at h
      subst h
      exact hoff
    · simp only [hneg, if_false] at h
      by_cases hc : d.power_count = 0
      · simp only [hc, if_true] at h
        by_cases hlk : w.ov5640_lock = true
        · simp [s_power_up, hlk] at h
        · have hlk2 : ({ w with trace := w.trace ++ t } : World).ov5640_lock = false := by
            simpa using hlk
          have hlines := hinv.2 (le_of_eq hc)
          have hoff1 : World.off_under env { w with trace := w.trace ++ t } :=
            hoff (le_of_eq hc)
          rcases s_power_up_cases env henv { w with trace := w.trace ++ t } d hlk2 hlines.1
            hlines.2 with ⟨ret, w1, h1, h2, -, -⟩ | ⟨ret, w1, h1, -, -, -⟩
          · intro _
            apply s_power_up_fail_off_under env henv _ d r hoff1 h
            rw [h1, Option.some.injEq] at h
            subst h
            exact h2
          · rw [h1, Option.some.injEq] at h
            subst h
            have hw : wrap_s32 (d.power_count + 1) = d.power_count + 1 :=
              wrap_s32_of_bounds _ (by omega) (by omega)
            intro hp
            simp only [hw] at hp
            omega
      · simp only [hc, if_false, s_power_update, s_power_exit_eq, Option.some.injEq] at h
        subst h
        have hw : wrap_s32 (d.power_count + 1) = d.power_count + 1 :=
          wrap_s32_of_bounds _ (by omega) (by omega)
        intro hp
        simp only [hw, if_true] at hp
        exact hoff (by omega)

/-- Along a run of returning calls, under conforming collaborators and away from
the limits of the C `int`: when the run starts with the clock and the supplies
disabled at a count of 0 or less, it ends so. -/
theorem power_run_off_under (env : Env) (henv : conforming env) :
    ∀ (calls : List Bool) (w : World) (d : ov5640) (w1 : World) (d1 : ov5640),
      power_inv w d → (d.power_count ≤ 0 → w.off_under env) →
      -2 ^ 31 + (calls.length : Int) ≤ d.power_count →
      d.power_count + (calls.length : Int) ≤ 2 ^ 31 - 1 →
      power_run env w d calls = some (w1, d1) →
      d1.power_count ≤ 0 → w1.off_under env := by
  intro calls
  induction calls with
  | nil =>
    intro w d w1 d1 _ hoff _ _ hrun
    simp only [power_run, Option.some.injEq, Prod.mk.injEq] at hrun
    obtain ⟨rfl, rfl⟩ := hrun
    exact hoff
  | cons on_ rest ih =>
    intro w d w1 d1 hinv hoff hlo hhi hrun
    simp only [List.length_cons, Nat.cast_add, Nat.cast_one] at hlo hhi
    have hrest : (0 : Int) ≤ rest.length := Int.natCast_nonneg _
    cases hs : ov5640_s_power env w d on_ with
    | none => simp [power_run, hs] at hrun
    | some r =>
      simp only [power_run, hs] at hrun
      obtain ⟨hinv1, hacq, hrel⟩ :=
        s_power_step env henv w d on_ r hinv (by omega) (by omega) hs
      have hoff1 := s_power_step_off_under env henv w d on_ r hinv hoff (by omega) (by omega) hs
      have hcount : d.power_count - 1 ≤ r.2.2.power_count ∧
          r.2.2.power_count ≤ d.power_count + 1 := by
        cases on_ with
        | false => have := hrel rfl; omega
        | true => rcases hacq rfl with h | h <;> omega
      exact ih r.2.1 r.2.2 w1 d1 hinv1 hoff1 (by omega) (by omega) hrun

theorem off_under_attached (env : Env) : World.attached.off_under env :=
  ⟨rfl, fun _ => ⟨rfl, rfl, rfl⟩⟩

theorem disables_succeed_env_i2c_ok : disables_succeed env_i2c_ok :=
  fun _ _ => le_refl _

/-- C1 (the claim as stated fails): from the freshly attached state, the single
call `ov5640_s_power(false)` returns and leaves `power_count` at -1. -/
theorem power_count_negative_after_release :
    ∃ w d, power_run env_i2c_ok World.attached (ov5640.attached 0x78 false false false)
        [false] = some (w, d) ∧ d.power_count = -1 ∧ ¬ (0 ≤ d.power_count) :=
  ⟨_, _, rfl, by decide, by decide⟩

/-- C1 (amended): for every sequence of fewer than `2 ^ 31` calls of
`ov5640_s_power` from the freshly attached state, under collaborators whose
regulator and clock enables report 0 or a negative code, after the last call
has returned the sensor is physically powered on if and only if
`power_count > 0`; when `power_count <= 0` the enable line is at 0, the reset
line at 1 and the clock disabled, and the three supplies are disabled as well
when no regulator disable fails; and `power_count >= 0` when no release of the
sequence was issued while `power_count` was 0 or less. -/
theorem power_count_tracks_hardware (env : Env) (henv : conforming env) (i2c_addr : Nat)
    (use_cci hflip vflip : Bool) (calls : List Bool) (w : World) (d : ov5640)
    (hlen : calls.length < 2 ^ 31)
    (hrun : power_run env World.attached (ov5640.attached i2c_addr use_cci hflip vflip) calls =
      some (w, d)) :
    (w.powered_on ↔ 0 < d.power_count) ∧
      (d.power_count ≤ 0 →
        w.enable_gpio = 0 ∧ w.rst_gpio = 1 ∧ w.xclk_on = false ∧
          (disables_succeed env → w.supplies_off)) ∧
      (releases_held env World.attached (ov5640.attached i2c_addr use_cci hflip vflip) calls →
        0 ≤ d.power_count) := by
  have hlen1 : (calls.length : Int) < 2 ^ 31 := by exact_mod_cast hlen
  have h0 : (ov5640.attached i2c_addr use_cci hflip vflip).power_count = 0 := rfl
  obtain ⟨hinv, hnonneg⟩ := power_run_inv env henv calls World.attached
    (ov5640.attached i2c_addr use_cci hflip vflip) w d
    (power_inv_attached i2c_addr use_cci hflip vflip) (by rw [h0]; omega) (by rw [h0]; omega) hrun
  have hoff := power_run_off_under env henv calls World.attached
    (ov5640.attached i2c_addr use_cci hflip vflip) w d
    (power_inv_attached i2c_addr use_cci hflip vflip) (fun _ => off_under_attached env)
    (by rw [h0]; omega) (by rw [h0]; omega) hrun
  refine ⟨power_inv_iff w d hinv, fun hc => ?_, hnonneg (le_of_eq h0.symm)⟩
  obtain ⟨hclk, hregs⟩ := hoff hc
  exact ⟨(hinv.2 hc).1, (hinv.2 hc).2, hclk,
    fun hdis => ⟨(hregs hdis).1, (hregs hdis).2.1, (hregs hdis).2.2, hclk⟩⟩

theorem power_run_up_up_down_i2c_ok :
    power_run env_i2c_ok World.attached (ov5640.attached 0x78 false false false)
        [true, true, false] =
      some ({ World.attached with
                io_on := true, analog_on := true, core_on := true, xclk_on := true,
                enable_gpio := 1, rst_gpio := 0,
                trace := power_up_script (ov5640.attached 0x78 false false false) },
            { ov5640.attached 0x78 false false false with power_count := 1 }) := by
  obtain ⟨ret, -, hup⟩ := s_power_edge_up_ok env_i2c_ok all_succeed_env_i2c_ok World.attached
    (ov5640.attached 0x78 false false false) rfl rfl
  simp only [power_run, hup]
  obtain ⟨ret2, -, h2⟩ := s_power_idle_ok env_i2c_ok all_succeed_env_i2c_ok
    { World.attached with
        io_on := true, analog_on := true, core_on := true, xclk_on := true,
        enable_gpio := 1, rst_gpio := 0,
        trace := World.attached.trace ++
          power_up_script (ov5640.attached 0x78 false false false) }
    { ov5640.attached 0x78 false false false with power_count := 1 } true (by simp) (by simp)
  simp only [h2]
  obtain ⟨ret3, -, h3⟩ := s_power_idle_ok env_i2c_ok all_succeed_env_i2c_ok
    { World.attached with
        io_on := true, analog_on := true, core_on := true, xclk_on := true,
        enable_gpio := 1, rst_gpio := 0,
        trace := World.attached.trace ++
          power_up_script (ov5640.attached 0x78 false false false) ++
          idle_script { ov5640.attached 0x78 false false false with power_count := 1 } true }
    { ov5640.attached 0x78 false false false with power_count := wrap_s32 (1 + 1) } false
    (by simp) (by simp [wrap_s32])
  simp only [if_true] at h3 ⊢
  simp only [h3]
  simp [World.attached, ov5640.attached, idle_script, wrap_s32]

theorem power_run_up_down_i2c_ok :
    power_run env_i2c_ok World.attached (ov5640.attached 0x78 false false false)
        [true, false] =
      some ({ World.attached with
                trace := power_up_script (ov5640.attached 0x78 false false false) ++
                  power_down_script (ov5640.attached 0x78 false false false) },
            ov5640.attached 0x78 false false false) := by
  obtain ⟨ret, -, hup⟩ := s_power_edge_up_ok env_i2c_ok all_succeed_env_i2c_ok World.attached
    (ov5640.attached 0x78 false false false) rfl rfl
  simp only [power_run, hup]
  have hdown := s_power_edge_down_ok env_i2c_ok all_succeed_env_i2c_ok
    { World.attached with
        io_on := true, analog_on := true, core_on := true, xclk_on := true,
        enable_gpio := 1, rst_gpio := 0,
        trace := World.attached.trace ++
          power_up_script (ov5640.attached 0x78 false false false) }
    { ov5640.attached 0x78 false false false with power_count := 1 } rfl
  simp only [hdown]
  simp [World.attached, ov5640.attached, power_down_script]

theorem power_count_tracks_hardware_witness :
    ([true, false] : List Bool).length < 2 ^ 31 ∧
      power_run env_i2c_ok World.attached (ov5640.attached 0x78 false false false)
          [true, false] =
        some ({ World.attached with
                  trace := power_up_script (ov5640.attached 0x78 false false false) ++
                    power_down_script (ov5640.attached 0x78 false false false) },
              ov5640.attached 0x78 false false false) ∧
      ((World.powered_on { World.attached with
            trace := power_up_script (ov5640.attached 0x78 false false false) ++
              power_down_script (ov5640.attached 0x78 false false false) } ↔
          0 < (ov5640.attached 0x78 false false false).power_count) ∧
        ((ov5640.attached 0x78 false false false).power_count ≤ 0 →
          ({ World.attached with
              trace := power_up_script (ov5640.attached 0x78 false false false) ++
                power_down_script (ov5640.attached 0x78 false false false) } :
            World).enable_gpio = 0 ∧
          ({ World.attached with
              trace := power_up_script (ov5640.attached 0x78 false false false) ++
                power_down_script (ov5640.attached 0x78 false false false) } :
            World).rst_gpio = 1 ∧
          ({ World.attached with
              trace := power_up_script (ov5640.attached 0x78 false false false) ++
                power_down_script (ov5640.attached 0x78 false false false) } :
            World).xclk_on = false ∧
          (disables_succeed env_i2c_ok →
            World.supplies_off { World.attached with
              trace := power_up_script (ov5640.attached 0x78 false false false) ++
                power_down_script (ov5640.attached 0x78 false false false) })) ∧
        (releases_held env_i2c_ok World.attached (ov5640.attached 0x78 false false false)
            [true, false] →
          0 ≤ (ov5640.attached 0x78 false false false).power_count)) :=
  ⟨by decide, power_run_up_down_i2c_ok,
   power_count_tracks_hardware env_i2c_ok conforming_env_i2c_ok 0x78 false false false
     [true, false] _ _ (by decide) power_run_up_down_i2c_ok⟩

theorem balanced_from_append :
    ∀ (xs : List Bool) (depth : Nat) (ys : List Bool), balanced_from depth (xs ++ ys) →
      balanced_from depth xs ∧ balanced_from (depth_after depth xs) ys := by
  intro xs
  induction xs with
  | nil => intro depth ys h; exact ⟨trivial, h⟩
  | cons x rest ih =>
    intro depth ys h
    cases x with
    | true => exact ih (depth + 1) ys h
    | false =>
      obtain ⟨hpos, hrest⟩ := h
      obtain ⟨h1, h2⟩ := ih (depth - 1) ys hrest
      exact ⟨⟨hpos, h1⟩, h2⟩

theorem depth_after_le : ∀ (xs : List Bool) (depth : Nat),
    depth_after depth xs ≤ depth + xs.length := by
  intro xs
  induction xs with
  | nil => intro depth; simp [depth_after]
  | cons x rest ih =>
    intro depth
    cases x with
    | true => have := ih (depth + 1); simp only [depth_after, List.length_cons]; omega
    | false => have := ih (depth - 1); simp only [depth_after, List.length_cons]; omega

/-- One call of `ov5640_s_power` when every collaborator call succeeds, with the
process-wide lock free and away from the limits of the C `int`. -/
theorem s_power_ok_step (env : Env) (hok : all_succeed env) (w : World) (d : ov5640)
    (on_ : Bool) (hlock : w.ov5640_lock = false) (hlo : -2 ^ 31 < d.power_count)
    (hhi : d.power_count < 2 ^ 31 - 1) :
    ∃ ret w1, 0 ≤ ret ∧
      ov5640_s_power env w d on_ =
        some (ret, w1, { d with power_count := d.power_count + (if on_ then 1 else -1) }) ∧
      w1.ov5640_lock = false ∧
      (on_ = true → d.power_count = 0 →
        w1 = { w with io_on := true, analog_on := true, core_on := true, xclk_on := true,
                      enable_gpio := 1, rst_gpio := 0,
                      trace := w.trace ++ power_up_script d }) ∧
      (on_ = false → d.power_count = 1 →
        w1 = { w with io_on := false, analog_on := false, core_on := false, xclk_on := false,
                      enable_gpio := 0, rst_gpio := 1,
                      trace := w.trace ++ power_down_script d }) ∧
      (¬ (on_ = true ∧ d.power_count = 0) → ¬ (on_ = false ∧ d.power_count = 1) →
        w1 = { w with trace := w.trace ++ idle_script d on_ }) := by
  by_cases hup : on_ = true ∧ d.power_count = 0
  · obtain ⟨rfl, hc⟩ := hup
    obtain ⟨ret, hret, h⟩ := s_power_edge_up_ok env hok w d hlock hc
    refine ⟨ret, { w with io_on := true, analog_on := true, core_on := true, xclk_on := true,
                          enable_gpio := 1, rst_gpio := 0,
                          trace := w.trace ++ power_up_script d },
      hret, ?_, hlock, fun _ _ => rfl, fun h1 => absurd h1 (by simp),
      fun h1 => absurd ⟨rfl, hc⟩ h1⟩
    rw [h]
    simp [hc]
  · by_cases hdown : on_ = false ∧ d.power_count = 1
    · obtain ⟨rfl, hc⟩ := hdown
      refine ⟨0, { w with io_on := false, analog_on := false, core_on := false,
                          xclk_on := false, enable_gpio := 0, rst_gpio := 1,
                          trace := w.trace ++ power_down_script d },
        le_refl _, ?_, hlock, fun h1 => absurd h1 (by simp), fun _ _ => rfl,
        fun _ h1 => absurd ⟨rfl, hc⟩ h1⟩
      rw [s_power_edge_down_ok env hok w d hc]
      simp [hc]
    · obtain ⟨ret, hret, h⟩ := s_power_idle_ok env hok w d on_ hup hdown
      have hw : wrap_s32 (d.power_count + (if on_ then 1 else -1)) =
          d.power_count + (if on_ then 1 else -1) := by
        apply wrap_s32_of_bounds <;> split <;> omega
      refine ⟨ret, { w with trace := w.trace ++ idle_script d on_ }, hret, ?_, hlock,
        fun h1 h2 => absurd ⟨h1, h2⟩ hup,
        fun h1 h2 => absurd ⟨h1, h2⟩ hdown, fun _ _ => rfl⟩
      rw [h, hw]

/-- A balanced run in which every collaborator call succeeds returns, with the
count equal to the number of outstanding acquires and the lock free. -/
theorem power_run_ok (env : Env) (hok : all_succeed env) :
    ∀ (calls : List Bool) (depth : Nat) (w : World) (d : ov5640),
      d.power_count = (depth : Int) → w.ov5640_lock = false → balanced_from depth calls →
      depth + calls.length < 2 ^ 31 →
      ∃ w1 d1, power_run env w d calls = some (w1, d1) ∧
        d1.power_count = (depth_after depth calls : Int) ∧ w1.ov5640_lock = false := by
  intro calls
  induction calls with
  | nil => intro depth w d hc hlock _ _; exact ⟨w, d, rfl, hc, hlock⟩
  | cons on_ rest ih =>
    intro depth w d hc hlock hbal hlen
    simp only [List.length_cons] at hlen
    obtain ⟨ret, w1, -, hs, hlock1, -⟩ := s_power_ok_step env hok w d on_ hlock
      (by rw [hc]; omega) (by rw [hc]; omega)
    simp only [power_run, hs]
    cases on_ with
    | true =>
      exact ih (depth + 1) w1 _ (by simp [hc]) hlock1 hbal (by omega)
    | false =>
      obtain ⟨hpos, hrest⟩ := hbal
      refine ih (depth - 1) w1 _ ?_ hlock1 hrest (by omega)
      simp only [hc, Bool.false_eq_true, if_false]
      omega

/-- C2: in a sequence of `ov5640_s_power` calls in which every prefix has at
least as many acquires as releases and every collaborator call succeeds, each
call returns a non-negative code and changes `power_count` by one; the
collaborator calls it makes are the power-up script (regulators, clock, control
lines, then the register writes) exactly when it finds `power_count = 0` with
`on` set, the power-down script exactly when it finds `power_count = 1` with
`on` clear, and otherwise at most the CCI controller's init or release, none
of which is a regulator, clock, GPIO or register operation. -/
theorem s_power_edges_only (env : Env) (hok : all_succeed env) (w0 : World) (d0 : ov5640)
    (hcount : d0.power_count = 0) (hlock : w0.ov5640_lock = false) (done : List Bool)
    (on_ : Bool) (rest : List Bool) (hbal : balanced_from 0 (done ++ on_ :: rest))
    (hlen : (done ++ on_ :: rest).length < 2 ^ 31) :
    ∃ w d ret w1,
      power_run env w0 d0 done = some (w, d) ∧
      d.power_count = (depth_after 0 done : Int) ∧
      ov5640_s_power env w d on_ =
        some (ret, w1, { d with power_count := d.power_count + (if on_ then 1 else -1) }) ∧
      0 ≤ ret ∧
      (on_ = true → d.power_count = 0 →
        w1 = { w with io_on := true, analog_on := true, core_on := true, xclk_on := true,
                      enable_gpio := 1, rst_gpio := 0,
                      trace := w.trace ++ power_up_script d }) ∧
      (on_ = false → d.power_count = 1 →
        w1 = { w with io_on := false, analog_on := false, core_on := false, xclk_on := false,
                      enable_gpio := 0, rst_gpio := 1,
                      trace := w.trace ++ power_down_script d }) ∧
      (¬ (on_ = true ∧ d.power_count = 0) → ¬ (on_ = false ∧ d.power_count = 1) →
        w1 = { w with trace := w.trace ++ idle_script d on_ } ∧
        ∀ op ∈ idle_script d on_, op.touches_sensor = false) := by
  obtain ⟨hb1, -⟩ := balanced_from_append done 0 (on_ :: rest) hbal
  have hd := depth_after_le done 0
  simp only [List.length_append, List.length_cons] at hlen
  obtain ⟨w, d, hrun, hc, hlk⟩ := power_run_ok env hok done 0 w0 d0 (by simpa using hcount)
    hlock hb1 (by omega)
  obtain ⟨ret, w1, hret, hs, -, hup, hdown, hidle⟩ := s_power_ok_step env hok w d on_ hlk
    (by rw [hc]; omega) (by rw [hc]; omega)
  refine ⟨w, d, ret, w1, hrun, hc, hs, hret, hup, hdown, fun h1 h2 => ⟨hidle h1 h2, ?_⟩⟩
  intro op hop
  unfold idle_script at hop
  split at hop
  · split at hop <;> simp at hop <;> subst hop <;> rfl
  · simp at hop

theorem s_power_edges_only_witness :
    ∃ w d ret w1,
      power_run env_i2c_ok World.attached (ov5640.attached 0x78 false false false) [true] =
        some (w, d) ∧
      d.power_count = (depth_after 0 [true] : Int) ∧
      ov5640_s_power env_i2c_ok w d true =
        some (ret, w1, { d with power_count := d.power_count + (if true then 1 else -1) }) ∧
      0 ≤ ret ∧
      (true = true → d.power_count = 0 →
        w1 = { w with io_on := true, analog_on := true, core_on := true, xclk_on := true,
                      enable_gpio := 1, rst_gpio := 0,
                      trace := w.trace ++ power_up_script d }) ∧
      (true = false → d.power_count = 1 →
        w1 = { w with io_on := false, analog_on := false, core_on := false, xclk_on := false,
                      enable_gpio := 0, rst_gpio := 1,
                      trace := w.trace ++ power_down_script d }) ∧
      (¬ (true = true ∧ d.power_count = 0) → ¬ (true = false ∧ d.power_count = 1) →
        w1 = { w with trace := w.trace ++ idle_script d true } ∧
        ∀ op ∈ idle_script d true, op.touches_sensor = false) :=
  s_power_edges_only env_i2c_ok all_succeed_env_i2c_ok World.attached
    (ov5640.attached 0x78 false false false) rfl rfl [true] true [false, false]
    (by simp [balanced_from]) (by decide)

/-! ## Power: a single failing step of the power-up -/

theorem write_op_ne_core_enable (c : Bool) (a r v : Nat) :
    write_op c a r v ≠ .regulator_enable .core_regulator := by
  cases c <;> simp [write_op]

/-- A single failing write of the initialization program or of the stop write:
the failing code is returned, the device is unchanged and the supplies and the
clock are disabled again. -/
theorem s_power_init_fails_once (env : Env) (w : World) (d : ov5640) (n k : Nat)
    (op : HwOp) (hn : w.trace.length = n)
    (hk : (ov5640_global_init_setting.map (reg_write_op d) ++
        [reg_write_op d ⟨OV5640_SYSTEM_CTRL0, OV5640_SYSTEM_CTRL0_STOP⟩])[k]? = some op)
    (hfail : env (n + k) op < 0)
    (hothers : ∀ j, j ≠ n + k → ∀ o, HwOp.succeeded o (env j o)) :
    ∃ w1, s_power_init env w d = (env (n + k) op, w1, d) ∧ w1.supplies_off ∧
      w1.ov5640_lock = w.ov5640_lock ∧ op ≠ .regulator_enable .core_regulator := by
  have hwr : ∀ j, j ≠ n + k → ∀ s, 0 ≤ env j (reg_write_op d s) :=
    fun j hj s => succeeded_write_op (hothers j hj (reg_write_op d s))
  have hdis : ∀ j, j ≠ n + k → ∀ r, 0 ≤ env j (.regulator_disable r) :=
    fun j hj r => le_of_eq (Eq.symm (hothers j hj (.regulator_disable r)))
  by_cases hlt : k < ov5640_global_init_setting.length
  · rw [List.getElem?_append_left (by simpa using hlt), List.getElem?_map] at hk
    obtain ⟨s, hs, rfl⟩ := Option.map_eq_some'.mp hk
    have harr := set_register_array_loop_fail env d ov5640_global_init_setting w n k s hn hs
      hfail (fun j hj t _ => hwr (n + j) (by omega) t)
    have hoff := set_power_off_ok env
      { w with trace :=
          w.trace ++ List.map (reg_write_op d) (ov5640_global_init_setting.take (k + 1)) }
      (n + (k + 1))
      (by simp [hn, List.length_take]; omega) (hdis _ (by omega) _) (hdis _ (by omega) _)
      (hdis _ (by omega) _)
    simp only [s_power_init, ov5640_set_register_array, List.take_length, harr, hfail,
      if_true, hoff, s_power_exit_eq]
    exact ⟨_, rfl, by simp [World.supplies_off], by simp,
      write_op_ne_core_enable _ _ _ _⟩
  · have hlen : ov5640_global_init_setting.length = k := by
      have := (List.getElem?_eq_some_iff.mp hk).1
      simp only [List.length_append, List.length_map, List.length_singleton] at this
      omega
    rw [List.getElem?_append_right (by simp [hlen])] at hk
    simp only [List.length_map, hlen, Nat.sub_self, List.getElem?_cons_zero,
      Option.some.injEq] at hk
    subst hk
    have harr := set_register_array_loop_ok env d ov5640_global_init_setting w n hn
      (fun j hj s _ => hwr (n + j) (by omega) s)
    have hpos : (w.trace ++ ov5640_global_init_setting.map (reg_write_op d)).length = n + k := by
      simp [hn, hlen]
    have hoff := set_power_off_ok env
      { w with trace := w.trace ++ ov5640_global_init_setting.map (reg_write_op d) ++
          [reg_write_op d ⟨OV5640_SYSTEM_CTRL0, OV5640_SYSTEM_CTRL0_STOP⟩] }
      (n + k + 1)
      (by simp [hn, hlen, Nat.add_assoc]) (hdis _ (by omega) _) (hdis _ (by omega) _) (hdis _ (by omega) _)
    simp only [s_power_init, ov5640_set_register_array, List.take_length, harr, lt_irrefl,
      if_false, write_reg_eq, hpos, hfail, if_true, hoff, s_power_exit_eq]
    exact ⟨_, rfl, by simp [World.supplies_off], by simp,
      write_op_ne_core_enable _ _ _ _⟩

/-- A single failing step of the power-up branch, entered with the process-wide
lock free and the supplies and the clock off: the failing code is returned, the
device is unchanged and the supplies and the clock are disabled again. -/
theorem s_power_up_fails_once (env : Env) (w : World) (d : ov5640) (n k : Nat) (op : HwOp)
    (hn : w.trace.length = n) (hlock : w.ov5640_lock = false) (hoff : w.supplies_off)
    (hk : (power_on_ops ++ power_up_writes d)[k]? = some op)
    (hfallible : ∀ line v, op ≠ .gpiod_set_value line v)
    (hfail : env (n + k) op < 0)
    (hothers : ∀ j, j ≠ n + k → ∀ o, HwOp.succeeded o (env j o)) :
    ∃ w1, s_power_up env w d = some (env (n + k) op, w1, d) ∧ w1.supplies_off ∧
      (op = .regulator_enable .core_regulator →
        w1.trace = w.trace ++ (power_on_ops ++ power_up_writes d).take (k + 1) ++
          [.regulator_disable .analog_regulator, .regulator_disable .io_regulator]) := by
  obtain ⟨hio, han, hco, hclk⟩ := hoff
  have hen : ∀ j, j ≠ n + k → ∀ r, env j (.regulator_enable r) = 0 :=
    fun j hj r => hothers j hj (.regulator_enable r)
  have hdis : ∀ j, j ≠ n + k → ∀ r, env j (.regulator_disable r) = 0 :=
    fun j hj r => hothers j hj (.regulator_disable r)
  have hck : ∀ j, j ≠ n + k → env j .clk_prepare_enable = 0 :=
    fun j hj => hothers j hj .clk_prepare_enable
  have hne : env (n + k) op ≠ 0 := ne_of_lt hfail
  by_cases hk6 : k < 6
  · rw [List.getElem?_append_left (by simpa [power_on_ops] using hk6)] at hk
    interval_cases k <;> simp only [power_on_ops, List.getElem?_cons_zero,
      List.getElem?_cons_succ, Option.some.injEq] at hk <;> subst hk
    · simp only [Nat.add_zero] at hfail hne ⊢
      simp only [s_power_up, hlock, Bool.false_eq_true, if_false, ov5640_set_power_on,
        ov5640_regulators_enable, hw_call, hw_effect, hn, hfail, if_true, hne,
        s_power_exit_eq]
      refine ⟨_, rfl, ?_, ?_⟩
      · simp [World.supplies_off, hio, han, hco, hclk]
      · simp
    · have h0 := hen n (by omega) .io_regulator
      have hd2 : env (n + 1 + 1) (.regulator_disable .io_regulator) = 0 := hdis _ (by omega) _
      simp only [s_power_up, hlock, Bool.false_eq_true, if_false, ov5640_set_power_on,
        ov5640_regulators_enable, hw_call, hw_effect, hn, h0, lt_irrefl, List.length_append,
        List.length_singleton, hfail, if_true, hne, ne_eq, not_false_eq_true, hd2,
        s_power_exit_eq]
      refine ⟨_, rfl, ?_, ?_⟩
      · simp [World.supplies_off, hio, han, hco, hclk]
      · simp
    · have h0 := hen n (by omega) .io_regulator
      have h1 := hen (n + 1) (by omega) .analog_regulator
      have hd3 : env (n + 1 + 1 + 1) (.regulator_disable .analog_regulator) = 0 :=
        hdis _ (by omega) _
      have hd4 : env (n + 1 + 1 + 1 + 1) (.regulator_disable .io_regulator) = 0 :=
        hdis _ (by omega) _
      have hf2 : env (n + 1 + 1) (.regulator_enable .core_regulator) < 0 := hfail
      simp only [s_power_up, hlock, Bool.false_eq_true, if_false, ov5640_set_power_on,
        ov5640_regulators_enable, hw_call, hw_effect, hn, h0, h1, lt_irrefl,
        List.length_append, List.length_singleton, hf2, if_true, ne_of_lt hf2, ne_eq,
        not_false_eq_true, not_true_eq_false, hd3, hd4, s_power_exit_eq]
      refine ⟨_, rfl, ?_, ?_⟩
      · simp [World.supplies_off, hio, han, hco, hclk]
      · intro _
        simp [power_on_ops]
    · have h0 := hen n (by omega) .io_regulator
      have h1 := hen (n + 1) (by omega) .analog_regulator
      have h2 := hen (n + 1 + 1) (by omega) .core_regulator
      have hd4 : env (n + 1 + 1 + 1 + 1) (.regulator_disable .core_regulator) = 0 :=
        hdis _ (by omega) _
      have hd5 : env (n + 1 + 1 + 1 + 1 + 1) (.regulator_disable .analog_regulator) = 0 :=
        hdis _ (by omega) _
      have hd6 : env (n + 1 + 1 + 1 + 1 + 1 + 1) (.regulator_disable .io_regulator) = 0 :=
        hdis _ (by omega) _
      have hf3 : env (n + 1 + 1 + 1) .clk_prepare_enable < 0 := hfail
      simp only [s_power_up, hlock, Bool.false_eq_true, if_false, ov5640_set_power_on,
        ov5640_regulators_enable, ov5640_regulators_disable, hw_call, hw_effect, hn, h0, h1,
        h2, lt_irrefl, List.length_append, List.length_singleton, hf3, if_true,
        ne_of_lt hf3, ne_eq, not_false_eq_true, not_true_eq_false, hd4, hd5, hd6,
        s_power_exit_eq]
      refine ⟨_, rfl, ?_, ?_⟩
      · simp [World.supplies_off, hio, han, hco, hclk]
      · simp
    · exact absurd rfl (hfallible _ _)
    · exact absurd rfl (hfallible _ _)
  · have hon := set_power_on_ok env { w with ov5640_lock := true } n hn
      (hen n (by omega) _) (hen (n + 1) (by omega) _) (hen (n + 2) (by omega) _)
      (hck (n + 3) (by omega))
    have hlen6 : power_on_ops.length = 6 := rfl
    rw [List.getElem?_append_right (by omega), hlen6] at hk
    have htr : (w.trace ++ power_on_ops).length = n + 6 := by simp [hn, hlen6]
    simp only [s_power_up, hlock, Bool.false_eq_true, if_false, hon, lt_irrefl]
    by_cases haddr : d.i2c_addr ≠ 0x78
    · simp only [power_up_writes, if_pos haddr, List.append_assoc] at hk
      rw [if_pos haddr]
      simp only [write_reg_to_eq, htr]
      by_cases hk7 : k = 6
      · subst hk7
        simp only [Nat.sub_self, List.getElem?_cons_zero, List.singleton_append,
          Option.some.injEq] at hk
        subst hk
        have hoff := set_power_off_ok env
          { w with io_on := true, analog_on := true, core_on := true, xclk_on := true,
                   enable_gpio := 1, rst_gpio := 0, ov5640_lock := true,
                   trace := w.trace ++ power_on_ops ++
                    [write_op d.use_cci (to_u16 0x78) (to_u16 0x3100) (to_u8 d.i2c_addr)] }
          (n + 6 + 1) (by simp [hn, hlen6])
          (le_of_eq (hdis _ (by omega) _).symm) (le_of_eq (hdis _ (by omega) _).symm)
          (le_of_eq (hdis _ (by omega) _).symm)
        simp only [hfail, if_true, hoff, s_power_exit_eq]
        exact ⟨_, rfl, by simp [World.supplies_off],
          fun h => absurd h (write_op_ne_core_enable _ _ _ _)⟩
      · have ha : 0 ≤ env (n + 6) (write_op d.use_cci (to_u16 0x78) (to_u16 0x3100)
            (to_u8 d.i2c_addr)) := succeeded_write_op (hothers _ (by omega) _)
        have hk' : (ov5640_global_init_setting.map (reg_write_op d) ++
            [reg_write_op d ⟨OV5640_SYSTEM_CTRL0, OV5640_SYSTEM_CTRL0_STOP⟩])[k - 6 - 1]? =
            some op := by
          rw [List.getElem?_append_right (by simp; omega)] at hk
          simpa using hk
        have hpos : n + 6 + 1 + (k - 6 - 1) = n + k := by omega
        obtain ⟨w1, h1, h2, -, h4⟩ := s_power_init_fails_once env
          { w with io_on := true, analog_on := true, core_on := true, xclk_on := true,
                   enable_gpio := 1, rst_gpio := 0, ov5640_lock := false,
                   trace := w.trace ++ power_on_ops ++
                    [write_op d.use_cci (to_u16 0x78) (to_u16 0x3100) (to_u8 d.i2c_addr)] }
          d (n + 6 + 1) (k - 6 - 1) op (by simp [hn, hlen6]) hk' (by rw [hpos]; exact hfail)
          (by rw [hpos]; exact hothers)
        rw [hpos] at h1
        simp only [not_lt.mpr ha, if_false, h1]
        exact ⟨_, rfl, h2, fun h => absurd h h4⟩
    · simp only [power_up_writes, if_neg haddr, List.nil_append] at hk
      rw [if_neg haddr]
      have hpos : n + 6 + (k - 6) = n + k := by omega
      obtain ⟨w1, h1, h2, -, h4⟩ := s_power_init_fails_once env
        { w with io_on := true, analog_on := true, core_on := true, xclk_on := true,
                 enable_gpio := 1, rst_gpio := 0, ov5640_lock := false,
                 trace := w.trace ++ power_on_ops }
        d (n + 6) (k - 6) op (by simp [hn, hlen6]) hk (by rw [hpos]; exact hfail)
        (by rw [hpos]; exact hothers)
      rw [hpos] at h1
      simp only [h1]
      exact ⟨_, rfl, h2, fun h => absurd h h4⟩

/-- C3: when `ov5640_s_power(true)` is called with `power_count = 0` (the
process-wide lock free, the supplies and the clock off) and a single step of
the power-up fails, every other collaborator call succeeding - the failing step
being the CCI init, the enable of the IO, analog or core regulator, the enable
of the clock, the address-reassignment write, a write of the initialization
program or the final stop write - the call returns the negative code of that
step, the device and with it `power_count = 0` are unchanged, and the three
supplies and the clock are disabled again; when the failing step is the enable
of the core regulator, the calls made after it are the disable of the analog
regulator and then the disable of the IO regulator. -/
theorem power_up_single_failure (env : Env) (w : World) (d : ov5640) (k : Nat) (op : HwOp)
    (hcount : d.power_count = 0) (hlock : w.ov5640_lock = false) (hoff : w.supplies_off)
    (hk : (power_up_script d)[k]? = some op)
    (hfallible : ∀ line v, op ≠ .gpiod_set_value line v)
    (hfail : env (w.trace.length + k) op < 0)
    (hothers : ∀ j, j ≠ w.trace.length + k → ∀ o, HwOp.succeeded o (env j o)) :
    ∃ ret w1 d1, ov5640_s_power env w d true = some (ret, w1, d1) ∧ ret < 0 ∧
      ret = env (w.trace.length + k) op ∧ d1 = d ∧ d1.power_count = 0 ∧ w1.supplies_off ∧
      (op = .regulator_enable .core_regulator →
        w1.trace = w.trace ++ (power_up_script d).take (k + 1) ++
          [.regulator_disable .analog_regulator, .regulator_disable .io_regulator]) := by
  cases hcci : d.use_cci with
  | false =>
    simp only [power_up_script, hcci, Bool.false_eq_true, if_false, List.nil_append,
      List.append_assoc] at hk ⊢
    obtain ⟨w1, h1, h2, h3⟩ := s_power_up_fails_once env w d w.trace.length k op rfl hlock
      hoff hk hfallible hfail hothers
    refine ⟨_, w1, d, ?_, hfail, rfl, rfl, hcount, h2, fun h => by simpa using h3 h⟩
    simp only [ov5640_s_power, hcci, Bool.and_false, Bool.false_eq_true, if_false, lt_irrefl,
      hcount, if_true, h1]
  | true =>
    simp only [power_up_script, if_pos hcci, List.append_assoc, List.singleton_append,
      List.cons_append] at hk ⊢
    cases k with
    | zero =>
      simp only [List.getElem?_cons_zero, Option.some.injEq] at hk
      subst hk
      simp only [Nat.add_zero] at hfail ⊢
      refine ⟨_, { w with trace := w.trace ++ [.msm_cci_ctrl_init] }, d, ?_, hfail, rfl, rfl,
        hcount, hoff, fun h => by simp at h⟩
      simp only [ov5640_s_power, hcci, Bool.and_true, if_true, hw_call, hw_effect, hfail,
        s_power_exit_eq]
      simp
    | succ k =>
      simp only [List.getElem?_cons_succ] at hk
      have hi : 0 ≤ env w.trace.length .msm_cci_ctrl_init :=
        hothers w.trace.length (by omega) .msm_cci_ctrl_init
      have hpos : w.trace.length + 1 + k = w.trace.length + (k + 1) := by omega
      obtain ⟨w1, h1, h2, h3⟩ := s_power_up_fails_once env
        { w with trace := w.trace ++ [.msm_cci_ctrl_init] } d (w.trace.length + 1) k op
        (by simp) hlock hoff hk hfallible (by rw [hpos]; exact hfail)
        (by rw [hpos]; exact hothers)
      rw [hpos] at h1
      refine ⟨_, w1, d, ?_, hfail, rfl, rfl, hcount, h2, fun h => ?_⟩
      · simp only [ov5640_s_power, hcci, Bool.and_true, if_true, hw_call, hw_effect,
          not_lt.mpr hi, if_false, hcount, h1]
      · simpa using h3 h

theorem power_up_single_failure_witness :
    ∃ ret w1 d1,
      ov5640_s_power (env_fail_at 2) World.attached (ov5640.attached 0x78 false false false)
        true = some (ret, w1, d1) ∧
      ret < 0 ∧
      ret = env_fail_at 2 (World.attached.trace.length + 2) (.regulator_enable .core_regulator) ∧
      d1 = ov5640.attached 0x78 false false false ∧ d1.power_count = 0 ∧ w1.supplies_off ∧
      (HwOp.regulator_enable .core_regulator = .regulator_enable .core_regulator →
        w1.trace = World.attached.trace ++
          (power_up_script (ov5640.attached 0x78 false false false)).take (2 + 1) ++
          [.regulator_disable .analog_regulator, .regulator_disable .io_regulator]) :=
  power_up_single_failure (env_fail_at 2) World.attached
    (ov5640.attached 0x78 false false false) 2 (.regulator_enable .core_regulator) rfl rfl
    ⟨rfl, rfl, rfl, rfl⟩ (by simp [power_up_script, power_on_ops, ov5640.attached])
    (fun _ _ h => by simp at h) (by decide)
    (fun j hj o => by
      have hj2 : j ≠ 2 := by simpa [World.attached] using hj
      cases o <;> simp [HwOp.succeeded, env_fail_at, hj2])

/-! ## Controls: flip round trip, saturation, unknown identifiers -/

set_option maxRecDepth 8000 in
theorem vflip_set_byte : ∀ b, b < 256 →
    to_u8 (to_u8 b ||| (OV5640_SENSOR_VFLIP ||| OV5640_ISP_VFLIP)) = b ||| 6 := by
  decide

set_option maxRecDepth 8000 in
theorem vflip_clear_byte : ∀ b, b < 256 →
    to_u8 (to_u8 b &&& ulong_not (OV5640_SENSOR_VFLIP ||| OV5640_ISP_VFLIP)) = b &&& 0xF9 := by
  decide

set_option maxRecDepth 8000 in
theorem vflip_set_clear_byte : ∀ b, b < 256 →
    (b ||| 6) < 256 ∧ (b ||| 6) &&& 0xF9 = b &&& 0xF9 ∧ (b &&& 6 = 0 → b &&& 0xF9 = b) := by
  decide

theorem s_ctrl_vflip_shape (env : Env) (d : ov5640) (w : World) (v : Int)
    (hpow : d.power_count ≠ 0) :
    ov5640_s_ctrl env d w .vflip v =
      (env w.trace.length (write_op d.use_cci (to_u16 d.i2c_addr) 0x3820
          (ShadowSetter.vflip.byte d v)),
       { w with trace := w.trace ++
          [write_op d.use_cci (to_u16 d.i2c_addr) 0x3820 (ShadowSetter.vflip.byte d v)] },
       if env w.trace.length (write_op d.use_cci (to_u16 d.i2c_addr) 0x3820
            (ShadowSetter.vflip.byte d v)) = 0
       then { d with timing_tc_reg20 := ShadowSetter.vflip.byte d v } else d) := by
  have h := shadow_setter_shape .vflip env d w v
  simp only [ShadowSetter.run, ShadowSetter.register, ShadowSetter.store,
    OV5640_TIMING_TC_REG20] at h
  simp only [ov5640_s_ctrl, hpow, if_false, h]

/-- C11 (the claim as stated fails): with the device powered and both writes
reporting `0`, from the shadow value `0x46` (vertical-flip bits set) setting
vertical flip to true and then to false leaves the shadow at `0x40`, and the
second call writes `0x40` to register `0x3820`, not the initial `0x46`. -/
theorem vflip_on_off_not_restored :
    (ov5640_s_ctrl env_zero (powered_with_reg20 0x46) World.attached .vflip 1).1 = 0 ∧
      (ov5640_s_ctrl env_zero
          (ov5640_s_ctrl env_zero (powered_with_reg20 0x46) World.attached .vflip 1).2.2
          (ov5640_s_ctrl env_zero (powered_with_reg20 0x46) World.attached .vflip 1).2.1
          .vflip 0).1 = 0 ∧
      ¬ ((ov5640_s_ctrl env_zero
          (ov5640_s_ctrl env_zero (powered_with_reg20 0x46) World.attached .vflip 1).2.2
          (ov5640_s_ctrl env_zero (powered_with_reg20 0x46) World.attached .vflip 1).2.1
          .vflip 0).2.2.timing_tc_reg20 = 0x46) ∧
      (ov5640_s_ctrl env_zero
          (ov5640_s_ctrl env_zero (powered_with_reg20 0x46) World.attached .vflip 1).2.2
          (ov5640_s_ctrl env_zero (powered_with_reg20 0x46) World.attached .vflip 1).2.1
          .vflip 0).2.1.trace =
        [.i2c_transfer 0x3c [0x38, 0x20, 0x46], .i2c_transfer 0x3c [0x38, 0x20, 0x40]] := by
  refine ⟨rfl, rfl, ?_, rfl⟩
  decide

/-- C11 (amended): with the device powered, setting vertical flip to true and
then to false, both register writes reporting `0`, leaves the shadow byte
`timing_tc_reg20` equal to its initial value with bits 1 and 2 cleared, and
that is the byte the second call writes to register `0x3820`; for every initial
value whose bits 1 and 2 are clear this is the initial value itself. -/
theorem vflip_on_off_clears_flip_bits (env : Env) (d : ov5640) (w : World) (v : Int)
    (hv : v ≠ 0) (hpow : d.power_count ≠ 0) (hu8 : d.timing_tc_reg20 < 256)
    (h1 : (ov5640_s_ctrl env d w .vflip v).1 = 0)
    (h2 : (ov5640_s_ctrl env (ov5640_s_ctrl env d w .vflip v).2.2
      (ov5640_s_ctrl env d w .vflip v).2.1 .vflip 0).1 = 0) :
    (ov5640_s_ctrl env (ov5640_s_ctrl env d w .vflip v).2.2
        (ov5640_s_ctrl env d w .vflip v).2.1 .vflip 0).2.2.timing_tc_reg20 =
        d.timing_tc_reg20 &&& 0xF9 ∧
      (ov5640_s_ctrl env (ov5640_s_ctrl env d w .vflip v).2.2
        (ov5640_s_ctrl env d w .vflip v).2.1 .vflip 0).2.1.trace =
        w.trace ++
          [write_op d.use_cci (to_u16 d.i2c_addr) 0x3820 (d.timing_tc_reg20 ||| 6),
           write_op d.use_cci (to_u16 d.i2c_addr) 0x3820 (d.timing_tc_reg20 &&& 0xF9)] ∧
      (d.timing_tc_reg20 &&& 6 = 0 →
        (ov5640_s_ctrl env (ov5640_s_ctrl env d w .vflip v).2.2
          (ov5640_s_ctrl env d w .vflip v).2.1 .vflip 0).2.2.timing_tc_reg20 =
          d.timing_tc_reg20 ∧
        d.timing_tc_reg20 &&& 0xF9 = d.timing_tc_reg20) := by
  obtain ⟨hlt, hsc, hclear⟩ := vflip_set_clear_byte d.timing_tc_reg20 hu8
  have hb1 : ShadowSetter.vflip.byte d v = d.timing_tc_reg20 ||| 6 := by
    simp only [ShadowSetter.byte, hv, if_false]
    exact vflip_set_byte _ hu8
  have hfirst := s_ctrl_vflip_shape env d w v hpow
  rw [hb1] at hfirst
  rw [hfirst] at h1
  simp only at h1
  rw [h1] at hfirst
  simp only [if_true] at hfirst
  rw [hfirst] at h2 ⊢
  have hb2 : ShadowSetter.vflip.byte
      { d with timing_tc_reg20 := d.timing_tc_reg20 ||| 6 } 0 =
      d.timing_tc_reg20 &&& 0xF9 := by
    simp only [ShadowSetter.byte, if_true]
    rw [vflip_clear_byte _ hlt, hsc]
  have hsecond := s_ctrl_vflip_shape env
    { d with timing_tc_reg20 := d.timing_tc_reg20 ||| 6 }
    { w with trace := w.trace ++
        [write_op d.use_cci (to_u16 d.i2c_addr) 0x3820 (d.timing_tc_reg20 ||| 6)] } 0 hpow
  rw [hb2] at hsecond
  simp only at hsecond h2 ⊢
  rw [hsecond] at h2 ⊢
  simp only at h2
  rw [h2]
  simp only [if_true, List.append_assoc, List.singleton_append, true_and]
  exact fun hc => ⟨hclear hc, hclear hc⟩

theorem vflip_on_off_clears_flip_bits_witness :
    (ov5640_s_ctrl env_zero
        (ov5640_s_ctrl env_zero (powered_with_reg20 0x40) World.attached .vflip 1).2.2
        (ov5640_s_ctrl env_zero (powered_with_reg20 0x40) World.attached .vflip 1).2.1
        .vflip 0).2.2.timing_tc_reg20 = (powered_with_reg20 0x40).timing_tc_reg20 &&& 0xF9 ∧
      (ov5640_s_ctrl env_zero
        (ov5640_s_ctrl env_zero (powered_with_reg20 0x40) World.attached .vflip 1).2.2
        (ov5640_s_ctrl env_zero (powered_with_reg20 0x40) World.attached .vflip 1).2.1
        .vflip 0).2.1.trace =
        World.attached.trace ++
          [write_op (powered_with_reg20 0x40).use_cci (to_u16 (powered_with_reg20 0x40).i2c_addr)
             0x3820 ((powered_with_reg20 0x40).timing_tc_reg20 ||| 6),
           write_op (powered_with_reg20 0x40).use_cci (to_u16 (powered_with_reg20 0x40).i2c_addr)
             0x3820 ((powered_with_reg20 0x40).timing_tc_reg20 &&& 0xF9)] ∧
      ((powered_with_reg20 0x40).timing_tc_reg20 &&& 6 = 0 →
        (ov5640_s_ctrl env_zero
          (ov5640_s_ctrl env_zero (powered_with_reg20 0x40) World.attached .vflip 1).2.2
          (ov5640_s_ctrl env_zero (powered_with_reg20 0x40) World.attached .vflip 1).2.1
          .vflip 0).2.2.timing_tc_reg20 = (powered_with_reg20 0x40).timing_tc_reg20 ∧
        (powered_with_reg20 0x40).timing_tc_reg20 &&& 0xF9 =
          (powered_with_reg20 0x40).timing_tc_reg20) :=
  vflip_on_off_clears_flip_bits env_zero (powered_with_reg20 0x40) World.attached 1
    (by decide) (by decide) (by decide) rfl rfl

set_option maxRecDepth 4000 in
theorem saturation_byte_range : ∀ k : Fin 9,
    (saturation_byte ((k : Int) - 4) : Int) = ((k : Int) - 4) * 16 + 64 ∧
      saturation_byte ((k : Int) - 4) ≤ 128 ∧
      s32_to_u32 (((k : Int) - 4) * 0x10 + 0x40) = saturation_byte ((k : Int) - 4) := by
  decide

/-- C12: for every saturation value `v` in `[-4, 4]`, `ov5640_set_saturation`
whose first write succeeds writes the byte `v * 16 + 64` - which lies in
`[0, 128]`, so the conversion to `u8` does not truncate it - first to register
`0x5583` and then the same byte to register `0x5584`, and returns the code of
the second write; `v = -4, 0, 4` give the bytes `0, 64, 128`. -/
theorem set_saturation_writes (env : Env) (d : ov5640) (w : World) (v : Int) (hlo : -4 ≤ v)
    (hhi : v ≤ 4)
    (hok : 0 ≤ env w.trace.length
      (write_op d.use_cci (to_u16 d.i2c_addr) 0x5583 (saturation_byte v))) :
    (saturation_byte v : Int) = v * 16 + 64 ∧ saturation_byte v ≤ 128 ∧
      s32_to_u32 (v * 0x10 + 0x40) = saturation_byte v ∧
      (ov5640_set_saturation env d w v).2.trace =
        w.trace ++ [write_op d.use_cci (to_u16 d.i2c_addr) 0x5583 (saturation_byte v),
                    write_op d.use_cci (to_u16 d.i2c_addr) 0x5584 (saturation_byte v)] ∧
      (ov5640_set_saturation env d w v).1 =
        env (w.trace.length + 1)
          (write_op d.use_cci (to_u16 d.i2c_addr) 0x5584 (saturation_byte v)) ∧
      saturation_byte (-4) = 0 ∧ saturation_byte 0 = 64 ∧ saturation_byte 4 = 128 := by
  obtain ⟨k, hk⟩ : ∃ k : Fin 9, v = (k : Int) - 4 :=
    ⟨⟨(v + 4).toNat, by omega⟩, by simp only; omega⟩
  obtain ⟨hb1, hb2, hb3⟩ := saturation_byte_range k
  rw [← hk] at hb1 hb2 hb3
  have e1 : ∀ w1 : World, ov5640_write_reg env d w1 OV5640_SDE_SAT_U
      (s32_to_u32 (v * 0x10 + 0x40)) =
      (env w1.trace.length (write_op d.use_cci (to_u16 d.i2c_addr) 0x5583 (saturation_byte v)),
       { w1 with trace := w1.trace ++
          [write_op d.use_cci (to_u16 d.i2c_addr) 0x5583 (saturation_byte v)] }) :=
    fun w1 => write_reg_eq env d w1 _ _
  have e2 : ∀ w1 : World, ov5640_write_reg env d w1 OV5640_SDE_SAT_V
      (s32_to_u32 (v * 0x10 + 0x40)) =
      (env w1.trace.length (write_op d.use_cci (to_u16 d.i2c_addr) 0x5584 (saturation_byte v)),
       { w1 with trace := w1.trace ++
          [write_op d.use_cci (to_u16 d.i2c_addr) 0x5584 (saturation_byte v)] }) :=
    fun w1 => write_reg_eq env d w1 _ _
  refine ⟨hb1, hb2, hb3, ?_, ?_, by decide, by decide, by decide⟩
  · simp only [ov5640_set_saturation, e1, e2, not_lt.mpr hok, if_false, List.append_assoc,
      List.singleton_append]
  · simp only [ov5640_set_saturation, e1, e2, not_lt.mpr hok, if_false, List.length_append,
      List.length_singleton]

theorem set_saturation_writes_witness :
    (saturation_byte (-4) : Int) = (-4) * 16 + 64 ∧ saturation_byte (-4) ≤ 128 ∧
      s32_to_u32 ((-4) * 0x10 + 0x40) = saturation_byte (-4) ∧
      (ov5640_set_saturation env_i2c_ok (powered_with_reg20 0x40) World.attached (-4)).2.trace =
        World.attached.trace ++
          [write_op (powered_with_reg20 0x40).use_cci (to_u16 (powered_with_reg20 0x40).i2c_addr)
             0x5583 (saturation_byte (-4)),
           write_op (powered_with_reg20 0x40).use_cci (to_u16 (powered_with_reg20 0x40).i2c_addr)
             0x5584 (saturation_byte (-4))] ∧
      (ov5640_set_saturation env_i2c_ok (powered_with_reg20 0x40) World.attached (-4)).1 =
        env_i2c_ok (World.attached.trace.length + 1)
          (write_op (powered_with_reg20 0x40).use_cci (to_u16 (powered_with_reg20 0x40).i2c_addr)
            0x5584 (saturation_byte (-4))) ∧
      saturation_byte (-4) = 0 ∧ saturation_byte 0 = 64 ∧ saturation_byte 4 = 128 :=
  set_saturation_writes env_i2c_ok (powered_with_reg20 0x40) World.attached (-4) (by decide)
    (by decide) (by decide)

/-- C13 (the claim as stated fails): with `power_count = 0`, `ov5640_s_ctrl` for
an unsupported control identifier returns `0`, not `-EINVAL`. -/
theorem s_ctrl_unknown_off_returns_zero :
    (ov5640_s_ctrl env_i2c_ok (ov5640.attached 0x78 false false false) World.attached
        (.other 0) 0).1 = 0 ∧
      (ov5640_s_ctrl env_i2c_ok (ov5640.attached 0x78 false false false) World.attached
        (.other 0) 0).1 ≠ -EINVAL := by
  constructor
  · rfl
  · decide

/-- C13 (amended): for every control identifier other than the seven supported
ones, `ov5640_s_ctrl` called while `power_count` is not 0 returns `-EINVAL` and
leaves the world and the device unchanged; in every power state it issues no
register write (with `power_count = 0` it returns `0`). -/
theorem s_ctrl_unknown_when_powered (env : Env) (d : ov5640) (w : World) (id : Nat) (val : Int)
    (hpow : d.power_count ≠ 0) :
    ov5640_s_ctrl env d w (.other id) val = (-EINVAL, w, d) ∧
      (∀ d1 : ov5640, (ov5640_s_ctrl env d1 w (.other id) val).2.1 = w ∧
        (d1.power_count = 0 → (ov5640_s_ctrl env d1 w (.other id) val).1 = 0)) := by
  refine ⟨by simp [ov5640_s_ctrl, hpow], fun d1 => ?_⟩
  by_cases h : d1.power_count = 0 <;> simp [ov5640_s_ctrl, h]

theorem s_ctrl_unknown_when_powered_witness :
    ov5640_s_ctrl env_i2c_ok (powered_with_reg20 0x40) World.attached (.other 7) 1 =
        (-EINVAL, World.attached, powered_with_reg20 0x40) ∧
      (∀ d1 : ov5640, (ov5640_s_ctrl env_i2c_ok d1 World.attached (.other 7) 1).2.1 =
          World.attached ∧
        (d1.power_count = 0 →
          (ov5640_s_ctrl env_i2c_ok d1 World.attached (.other 7) 1).1 = 0)) :=
  s_ctrl_unknown_when_powered env_i2c_ok (powered_with_reg20 0x40) World.attached 7 1 (by decide)

/-! ## Streaming -/

/-- C14: with a current mode `m`, `ov5640_s_stream(true)` first writes the
register program of `m` in table order; when every one of these writes
succeeds it then runs the control re-synchronisation on the resulting world,
and when that succeeds it issues the write of `0x02` to register `0x3008` as
the last operation and returns `0`.  When a write of the mode program fails,
the failing code is returned with the trace ending at the failing write:
neither the re-synchronisation nor the start write is issued.
`ov5640_s_stream(false)` issues exactly one call, the write of `0x42` to
register `0x3008`. -/
theorem s_stream_order (env : Env) (ctrl_setup : World → ov5640 → Int × World × ov5640)
    (d : ov5640) (w : World) (m : ov5640_mode_info) (hm : d.current_mode = some m) :
    ((∀ j s, (m.data.take m.data_size)[j]? = some s →
          0 ≤ env (w.trace.length + j) (reg_write_op d s)) →
        0 ≤ (ctrl_setup (after_mode_program d w m) d).1 →
        0 ≤ env (ctrl_setup (after_mode_program d w m) d).2.1.trace.length
          (start_op (ctrl_setup (after_mode_program d w m) d).2.2) →
        ov5640_s_stream env ctrl_setup d w true =
          .ok (0,
            { (ctrl_setup (after_mode_program d w m) d).2.1 with
                trace := (ctrl_setup (after_mode_program d w m) d).2.1.trace ++
                  [start_op (ctrl_setup (after_mode_program d w m) d).2.2] },
            (ctrl_setup (after_mode_program d w m) d).2.2)) ∧
      (∀ k s, (m.data.take m.data_size)[k]? = some s →
        env (w.trace.length + k) (reg_write_op d s) < 0 →
        (∀ j, j < k → ∀ t, (m.data.take m.data_size)[j]? = some t →
          0 ≤ env (w.trace.length + j) (reg_write_op d t)) →
        ov5640_s_stream env ctrl_setup d w true =
          .ok (env (w.trace.length + k) (reg_write_op d s),
            { w with trace := w.trace ++
                ((m.data.take m.data_size).take (k + 1)).map (reg_write_op d) }, d)) ∧
      (∃ ret, (ret = 0 ∨ ret < 0) ∧
        ov5640_s_stream env ctrl_setup d w false =
          .ok (ret, { w with trace := w.trace ++ [stop_op d] }, d)) := by
  refine ⟨fun hprog hsetup hstart => ?_, fun k s hk hfail hbefore => ?_, ?_⟩
  · have harr := set_register_array_loop_ok env d (m.data.take m.data_size) w _ rfl
      (fun j _ s hs => hprog j s hs)
    simp only [ov5640_s_stream, if_true, hm, ov5640_set_register_array, harr, lt_irrefl,
      if_false]
    simp only [after_mode_program] at hsetup hstart
    simp only [not_lt.mpr hsetup, if_false, write_reg_eq]
    simp only [start_op] at hstart
    simp only [not_lt.mpr hstart, if_false, after_mode_program, start_op]
  · have harr := set_register_array_loop_fail env d (m.data.take m.data_size) w _ k s rfl hk
      hfail hbefore
    simp only [ov5640_s_stream, if_true, hm, ov5640_set_register_array, harr, hfail]
  · simp only [ov5640_s_stream, Bool.false_eq_true, if_false, write_reg_eq, stop_op]
    split
    · rename_i h
      exact ⟨_, Or.inr h, rfl⟩
    · exact ⟨0, Or.inl rfl, rfl⟩

theorem env_i2c_ok_nonneg (n : Nat) (op : HwOp) : 0 ≤ env_i2c_ok n op := by
  cases op <;> simp [env_i2c_ok]

theorem s_stream_order_witness :
    streaming_device.current_mode = some mode_1080p ∧
      ov5640_s_stream env_i2c_ok (resync_vflip_off env_i2c_ok) streaming_device World.attached
          true =
        .ok (0,
          { (resync_vflip_off env_i2c_ok
                (after_mode_program streaming_device World.attached mode_1080p)
                streaming_device).2.1 with
              trace := (resync_vflip_off env_i2c_ok
                  (after_mode_program streaming_device World.attached mode_1080p)
                  streaming_device).2.1.trace ++
                [start_op (resync_vflip_off env_i2c_ok
                  (after_mode_program streaming_device World.attached mode_1080p)
                  streaming_device).2.2] },
          (resync_vflip_off env_i2c_ok
            (after_mode_program streaming_device World.attached mode_1080p)
            streaming_device).2.2) :=
  ⟨rfl,
   (s_stream_order env_i2c_ok (resync_vflip_off env_i2c_ok) streaming_device World.attached
      mode_1080p rfl).1
     (fun _ _ _ => env_i2c_ok_nonneg _ _)
     (by
       rw [resync_vflip_off, s_ctrl_vflip_shape _ _ _ _ (by decide)]
       dsimp only
       exact env_i2c_ok_nonneg _ _)
     (env_i2c_ok_nonneg _ _)⟩

/-! ## Power: order of the operations -/

theorem set_power_off_trace (env : Env) (w : World) :
    (ov5640_set_power_off env w).trace = w.trace ++ power_off_ops := by
  simp [ov5640_set_power_off, ov5640_regulators_disable, hw_call, power_off_ops]

/-- C15: a successful `ov5640_set_power_on` issues, in this order, the enables of
the IO, analog and core regulators and of the clock, then drives the enable
line to 1 and the reset line to 0; `ov5640_set_power_off` issues, whatever the
collaborators report (so also when an earlier disable fails), reset to 1,
enable to 0, the clock disable, then the disables of the core, analog and IO
regulators: the exact reverse of the power-up calls, each inverted. -/
theorem power_off_reverses_power_on (env_on env_off : Env) (w_on w_off : World)
    (h1 : env_on w_on.trace.length (.regulator_enable .io_regulator) = 0)
    (h2 : env_on (w_on.trace.length + 1) (.regulator_enable .analog_regulator) = 0)
    (h3 : env_on (w_on.trace.length + 2) (.regulator_enable .core_regulator) = 0)
    (h4 : env_on (w_on.trace.length + 3) .clk_prepare_enable = 0) :
    (ov5640_set_power_on env_on w_on).1 = 0 ∧
      (ov5640_set_power_on env_on w_on).2.trace =
        w_on.trace ++
          [.regulator_enable .io_regulator, .regulator_enable .analog_regulator,
           .regulator_enable .core_regulator, .clk_prepare_enable,
           .gpiod_set_value .enable_gpio 1, .gpiod_set_value .rst_gpio 0] ∧
      (ov5640_set_power_off env_off w_off).trace =
        w_off.trace ++
          [.gpiod_set_value .rst_gpio 1, .gpiod_set_value .enable_gpio 0,
           .clk_disable_unprepare, .regulator_disable .core_regulator,
           .regulator_disable .analog_regulator, .regulator_disable .io_regulator] ∧
      (ov5640_set_power_off env_off w_off).trace =
        w_off.trace ++
          (((ov5640_set_power_on env_on w_on).2.trace.drop w_on.trace.length).reverse.map
            HwOp.inverse) := by
  have hon := set_power_on_ok env_on w_on _ rfl h1 h2 h3 h4
  have hoff := set_power_off_trace env_off w_off
  rw [hon, hoff]
  refine ⟨rfl, rfl, rfl, ?_⟩
  simp [power_on_ops, power_off_ops, HwOp.inverse]

theorem power_off_reverses_power_on_witness :
    (ov5640_set_power_on env_zero World.attached).1 = 0 ∧
      (ov5640_set_power_on env_zero World.attached).2.trace =
        World.attached.trace ++
          [.regulator_enable .io_regulator, .regulator_enable .analog_regulator,
           .regulator_enable .core_regulator, .clk_prepare_enable,
           .gpiod_set_value .enable_gpio 1, .gpiod_set_value .rst_gpio 0] ∧
      (ov5640_set_power_off env_all_fail World.powered).trace =
        World.powered.trace ++
          [.gpiod_set_value .rst_gpio 1, .gpiod_set_value .enable_gpio 0,
           .clk_disable_unprepare, .regulator_disable .core_regulator,
           .regulator_disable .analog_regulator, .regulator_disable .io_regulator] ∧
      (ov5640_set_power_off env_all_fail World.powered).trace =
        World.powered.trace ++
          (((ov5640_set_power_on env_zero World.attached).2.trace.drop
            World.attached.trace.length).reverse.map HwOp.inverse) :=
  power_off_reverses_power_on env_zero env_all_fail World.attached World.powered rfl rfl rfl rfl

theorem power_down_script_no_register_write (d : ov5640) :
    ∀ op ∈ power_down_script d, op.is_register_write = false := by
  intro op hop
  cases hcci : d.use_cci <;>
    simp only [power_down_script, power_off_ops, hcci, Bool.false_eq_true, if_false, if_true,
      List.append_nil, List.cons_append, List.nil_append, List.mem_cons, List.mem_singleton,
      List.not_mem_nil, or_false] at hop
  · rcases hop with h | h | h | h | h | h <;> subst h <;> rfl
  · rcases hop with h | h | h | h | h | h | h <;> subst h <;> rfl

/-- The 1 to 0 edge, whatever the collaborators report. -/
theorem s_power_edge_down_trace (env : Env) (w : World) (d : ov5640) (hc : d.power_count = 1) :
    ∃ w1, ov5640_s_power env w d false = some (0, w1, { d with power_count := 0 }) ∧
      w1.trace = w.trace ++ power_down_script d := by
  have hw : wrap_s32 (1 + -1) = 0 := by simp [wrap_s32]
  simp only [ov5640_s_power, Bool.false_and, Bool.false_eq_true, if_false, lt_irrefl, hc,
    if_true, s_power_update, s_power_exit_eq, hw]
  refine ⟨_, rfl, ?_⟩
  cases hcci : d.use_cci <;> simp [power_down_script, set_power_off_trace, hcci]

/-- C16: on the 0 to 1 edge of `ov5640_s_power` with every collaborator call
succeeding, the calls made are the CCI init (under the CCI backend), the
physical power-up, the address reassignment (when the bus address is not
`0x78`), then the writes of `ov5640_global_init_setting` in table order, then
one write of `0x42` to register `0x3008`, which is the last call; on the 1 to 0
edge, whatever the collaborators report, no call made is a register write. -/
theorem s_power_edge_register_writes (env_up env_down : Env) (hok : all_succeed env_up)
    (w : World) (d : ov5640) (hlock : w.ov5640_lock = false) :
    (d.power_count = 0 →
        ∃ ret w1 d1, ov5640_s_power env_up w d true = some (ret, w1, d1) ∧ 0 ≤ ret ∧
          w1.powered_on ∧ d1.power_count = 1 ∧
          w1.trace =
            w.trace ++
              ((if d.use_cci then [.msm_cci_ctrl_init] else []) ++ power_on_ops ++
                (if d.i2c_addr ≠ 0x78 then
                  [write_op d.use_cci (to_u16 0x78) (to_u16 0x3100) (to_u8 d.i2c_addr)]
                else [])) ++
              ov5640_global_init_setting.map (reg_write_op d) ++ [stop_op d] ∧
          w1.trace.getLast? = some (stop_op d)) ∧
      (d.power_count = 1 →
        ∃ ret w1 d1, ov5640_s_power env_down w d false = some (ret, w1, d1) ∧
          d1.power_count = 0 ∧
          ∃ t, w1.trace = w.trace ++ t ∧ ∀ op ∈ t, op.is_register_write = false) := by
  refine ⟨fun hc => ?_, fun hc => ?_⟩
  · obtain ⟨ret, hret, hup⟩ := s_power_edge_up_ok env_up hok w d hlock hc
    refine ⟨ret, _, _, hup, hret, ?_, rfl, ?_, ?_⟩
    · simp [World.powered_on]
    · simp [power_up_script, power_up_writes, stop_op, List.append_assoc]
    · simp [power_up_script, power_up_writes, stop_op]
  · obtain ⟨w1, hdown, htr⟩ := s_power_edge_down_trace env_down w d hc
    exact ⟨0, w1, _, hdown, rfl, power_down_script d, htr,
      power_down_script_no_register_write d⟩

theorem s_power_edge_register_writes_witness :
    (ov5640.attached 0x78 false false false).power_count = 0 ∧
      ∃ ret w1 d1,
        ov5640_s_power env_i2c_ok World.attached (ov5640.attached 0x78 false false false) true =
          some (ret, w1, d1) ∧ 0 ≤ ret ∧ w1.powered_on ∧ d1.power_count = 1 ∧
        w1.trace =
          World.attached.trace ++
            ((if (ov5640.attached 0x78 false false false).use_cci then [.msm_cci_ctrl_init]
                else []) ++ power_on_ops ++
              (if (ov5640.attached 0x78 false false false).i2c_addr ≠ 0x78 then
                [write_op (ov5640.attached 0x78 false false false).use_cci (to_u16 0x78)
                  (to_u16 0x3100) (to_u8 (ov5640.attached 0x78 false false false).i2c_addr)]
              else [])) ++
            ov5640_global_init_setting.map
              (reg_write_op (ov5640.attached 0x78 false false false)) ++
            [stop_op (ov5640.attached 0x78 false false false)] ∧
        w1.trace.getLast? = some (stop_op (ov5640.attached 0x78 false false false)) :=
  ⟨rfl,
   (s_power_edge_register_writes env_i2c_ok env_all_fail all_succeed_env_i2c_ok World.attached
      (ov5640.attached 0x78 false false false) rfl).1 rfl⟩

/-! ## Detach -/

/-- C17 (the claim as stated fails): called with power held (`power_count = 1`,
the sensor powered on), `ov5640_remove` returns with the sensor still powered
on, the supplies not disabled and no call appended to the trace. -/
theorem remove_leaves_power_on :
    World.powered.powered_on ∧ 0 < (powered_with_reg20 0x40).power_count ∧
      (ov5640_remove World.powered (powered_with_reg20 0x40)).2.1.powered_on ∧
      ¬ (ov5640_remove World.powered (powered_with_reg20 0x40)).2.1.supplies_off ∧
      (ov5640_remove World.powered (powered_with_reg20 0x40)).2.1.trace =
        World.powered.trace := by
  refine ⟨by decide, by decide, by decide, ?_, rfl⟩
  simp [World.supplies_off, ov5640_remove, World.powered]

/-- C17 (amended): `ov5640_remove` makes four framework calls, returns `0`, and
leaves the world and the device as they were: called with power still held
(`power_count > 0`, the sensor powered on), no power-down call is made, the
sensor is still powered on and `power_count` is unchanged when it returns. -/
theorem remove_keeps_power_state (w : World) (d : ov5640) (hheld : 0 < d.power_count)
    (hon : w.powered_on) :
    (ov5640_remove w d).1 = 0 ∧ (ov5640_remove w d).2.1 = w ∧ (ov5640_remove w d).2.2.1 = d ∧
      (ov5640_remove w d).2.1.trace = w.trace ∧ (ov5640_remove w d).2.1.powered_on ∧
      0 < (ov5640_remove w d).2.2.1.power_count ∧
      (ov5640_remove w d).2.2.2 =
        [.v4l2_async_unregister_subdev, .media_entity_cleanup, .v4l2_ctrl_handler_free,
         .mutex_destroy] :=
  ⟨rfl, rfl, rfl, rfl, hon, hheld, rfl⟩

theorem remove_keeps_power_state_witness :
    0 < (powered_with_reg20 0x40).power_count ∧ World.powered.powered_on ∧
      (ov5640_remove World.powered (powered_with_reg20 0x40)).2.1 = World.powered ∧
      (ov5640_remove World.powered (powered_with_reg20 0x40)).2.1.powered_on :=
  ⟨by decide, by decide,
   (remove_keeps_power_state World.powered (powered_with_reg20 0x40) (by decide)
      (by decide)).2.1,
   (remove_keeps_power_state World.powered (powered_with_reg20 0x40) (by decide)
      (by decide)).2.2.2.2.1⟩

/-! ## The process-wide lock -/

/-- C18 (as the code behaves): from the freshly attached state, with the
process-wide lock free, when the enable of the IO regulator fails,
`ov5640_s_power(true)` returns the error `-5` with the process-wide lock still
held; the next `ov5640_s_power(true)` then never returns.  On the sibling path,
a failing address-reassignment write (bus address `0x3c`), the lock is free at
the return. -/
theorem s_power_failed_power_on_keeps_lock :
    World.attached.ov5640_lock = false ∧
      (∃ w1 d1,
        ov5640_s_power (env_fail_at 0) World.attached (ov5640.attached 0x78 false false false)
          true = some (-5, w1, d1) ∧
        w1.ov5640_lock = true ∧ d1.power_count = 0) ∧
      power_run (env_fail_at 0) World.attached (ov5640.attached 0x78 false false false)
        [true, true] = none ∧
      (∃ w1 d1,
        ov5640_s_power (env_fail_at 6) World.attached (ov5640.attached 0x3c false false false)
          true = some (-5, w1, d1) ∧
        w1.ov5640_lock = false ∧ d1.power_count = 0) := by
  refine ⟨rfl, ⟨_, _, rfl, rfl, rfl⟩, rfl, ⟨_, _, rfl, rfl, rfl⟩⟩

end OV5640
